import Mathlib

/-!
Verification of the MCPForge project-generation and static-analysis engine.

The development shallowly embeds the core of the repository's CLI:

* the naming normalizer (`toSnakeCase`, `toPascalCase`, `toKebabCase`),
* the per-language procedural generators (`generateProject` and friends),
* the static analyzer (`analyzeProject` with its per-language matchers),
* the structural validator (`validateProject` and friends),
* the template materializer (`copyTemplateFiles`),
* the incremental-add flow (`addCommand` dispatch, modelled as an effect trace).

File systems are modelled as association lists from paths (lists of path
components, relative to the project directory) to file contents.  The
JavaScript regular expressions used by the analyzer are embedded as explicit
scanners over character lists that implement the exact semantics of the
concrete patterns appearing in the source (literal heads, greedy and lazy
repetition, character classes), together with `String.prototype.matchAll`'s
left-to-right non-overlapping scanning discipline.

`JSON.parse` (used only by the TypeScript validator on `package.json`) is an
external library; it is modelled as an abstract parameter `parseDeps` mapping
the manifest text to the merged key set of `dependencies` and
`devDependencies` (`none` models a parse exception).
-/

/-! ## Character helpers (ASCII, mirroring the JS regex character classes) -/

/-- The JS regex class `[A-Z]` used by `toSnakeCase`/`toKebabCase`. -/
def isUpperAZ (c : Char) : Bool := 'A' ≤ c && c ≤ 'Z'

/-- The JS regex class `[a-z]`. -/
def isLowerAZ (c : Char) : Bool := 'a' ≤ c && c ≤ 'z'

/-- The JS regex class `[0-9]`. -/
def isDigit09 (c : Char) : Bool := '0' ≤ c && c ≤ '9'

/-- The JS regex class `\w`, i.e. `[A-Za-z0-9_]`. -/
def isWordChar (c : Char) : Bool := isUpperAZ c || isLowerAZ c || isDigit09 c || c == '_'

/-- The JS regex class `\s`, restricted to the ASCII whitespace that can occur
in the generated sources (space, tab, carriage return, newline). -/
def isSpaceChar (c : Char) : Bool := c == ' ' || c == '\t' || c == '\n' || c == '\r'

/-- A single quote character, i.e. the JS regex class `['"]`.  The apostrophe
is written via its code point. -/
def isQuoteChar (c : Char) : Bool := c == Char.ofNat 39 || c == '"'

/-- `String.prototype.toLowerCase` on the ASCII range (the only case mapping
exercised by valid project names). -/
def lowerAZ (c : Char) : Char := if isUpperAZ c then Char.ofNat (c.toNat + 32) else c

/-- `String.prototype.toUpperCase` on the ASCII range. -/
def upperAZ (c : Char) : Char := if isLowerAZ c then Char.ofNat (c.toNat - 32) else c

/-! ## Naming normalizer (`toSnakeCase`, `toPascalCase`, `toKebabCase`) -/

/-- `str.replace(/([A-Z])/g, '_$1')`: insert `_` before every ASCII uppercase
letter. -/
def insertUnderscores (cs : List Char) : List Char :=
  cs.foldr (fun c acc => if isUpperAZ c then '_' :: c :: acc else c :: acc) []

/-- `str.replace(/([A-Z])/g, '[-]$1')` (the inserted character is a hyphen). -/
def insertHyphens (cs : List Char) : List Char :=
  cs.foldr (fun c acc => if isUpperAZ c then '-' :: c :: acc else c :: acc) []

/-- `str.replace(/^_/, '')`: drop one leading underscore, if present. -/
def dropLeadingUnderscore : List Char → List Char
  | c :: rest => if c = '_' then rest else c :: rest
  | [] => []

/-- `str.replace(/^[-]/, '')`: drop one leading hyphen, if present. -/
def dropLeadingHyphen : List Char → List Char
  | c :: rest => if c = '-' then rest else c :: rest
  | [] => []

/-- `toSnakeCase` from the `new` command:
`str.replace(/([A-Z])/g,'_$1').toLowerCase().replace(/^_/,'').replace(/[-]/g,'_')`. -/
def toSnakeCase (s : String) : String :=
  ⟨(dropLeadingUnderscore ((insertUnderscores s.data).map lowerAZ)).map
    (fun c => if c == '-' then '_' else c)⟩

/-- `toKebabCase` from the `new` command: insert a hyphen before each ASCII
uppercase letter, then `.toLowerCase().replace(/^[-]/,'').replace(/_/g,'-')`. -/
def toKebabCase (s : String) : String :=
  ⟨(dropLeadingHyphen ((insertHyphens s.data).map lowerAZ)).map
    (fun c => if c == '_' then '-' else c)⟩

/-- `str.split(/[-_]/)` on character lists: split on every hyphen or
underscore, keeping empty segments (as JS does). -/
def splitSegsAux : List Char → List (List Char)
  | [] => [[]]
  | c :: rest =>
    match splitSegsAux rest with
    | [] => [[c]]
    | seg :: segs =>
      if c == '-' || c == '_' then [] :: seg :: segs else (c :: seg) :: segs

/-- `str.split(/[-_]/)` as used by `toPascalCase`. -/
def splitSegs (s : String) : List String := (splitSegsAux s.data).map List.asString

/-- `word.charAt(0).toUpperCase() + word.slice(1).toLowerCase()` — capitalize
one segment (`charAt(0)` of the empty string is the empty string). -/
def capSeg (w : String) : String :=
  match w.data with
  | [] => ""
  | c :: rest => ⟨upperAZ c :: rest.map lowerAZ⟩

/-- `toPascalCase` from the `new` command:
`str.split(/[-_]/).map(word => word.charAt(0).toUpperCase() + word.slice(1).toLowerCase()).join('')`. -/
def toPascalCase (s : String) : String := String.join ((splitSegs s).map capSeg)

/-! ## Substring search (`String.prototype.includes`) -/

/-- Try to strip the literal `pat` from the front of `cs`; `some rest` on
success.  This is the building block for literal regex fragments. -/
def dropLit : List Char → List Char → Option (List Char)
  | [], cs => some cs
  | _ :: _, [] => none
  | p :: ps, c :: cs => if p == c then dropLit ps cs else none

/-- Does `cs` contain `pat` as a contiguous substring? -/
def hasSub (pat : List Char) : List Char → Bool
  | [] => (dropLit pat []).isSome
  | c :: cs => (dropLit pat (c :: cs)).isSome || hasSub pat cs

/-- `hay.includes(needle)` on strings. -/
def strIncludes (hay needle : String) : Bool := hasSub needle.data hay.data

theorem dropLit_append {pat a : List Char} (b : List Char) {r : List Char}
    (h : dropLit pat a = some r) : dropLit pat (a ++ b) = some (r ++ b) := by
  induction pat generalizing a r with
  | nil => simp [dropLit] at h; simp [dropLit, h]
  | cons p ps ih =>
    cases a with
    | nil => simp [dropLit] at h
    | cons c cs =>
      simp only [dropLit] at h ⊢
      by_cases hpc : (p == c) = true
      · simp [hpc] at h ⊢; exact ih h
      · simp [hpc] at h

theorem hasSub_append_l {pat a : List Char} (b : List Char)
    (h : hasSub pat a = true) : hasSub pat (a ++ b) = true := by
  induction a with
  | nil =>
    simp [hasSub] at h
    cases pat with
    | nil => cases b with
      | nil => simp [hasSub, dropLit]
      | cons x xs => simp [hasSub, dropLit]
    | cons p ps => simp [dropLit] at h
  | cons c cs ih =>
    simp only [hasSub, List.cons_append, Bool.or_eq_true] at h ⊢
    cases h with
    | inl h =>
      left
      obtain ⟨r, hr⟩ := Option.isSome_iff_exists.mp h
      exact Option.isSome_iff_exists.mpr ⟨r ++ b, dropLit_append b hr⟩
    | inr h => right; exact ih h

theorem hasSub_append_r {pat : List Char} (a : List Char) {b : List Char}
    (h : hasSub pat b = true) : hasSub pat (a ++ b) = true := by
  induction a with
  | nil => simpa using h
  | cons c cs ih =>
    simp only [List.cons_append, hasSub, Bool.or_eq_true]
    right; exact ih

theorem strIncludes_append_l {a : String} (b : String) {n : String}
    (h : strIncludes a n = true) : strIncludes (a ++ b) n = true := by
  have : (a ++ b).data = a.data ++ b.data := rfl
  unfold strIncludes at h ⊢
  rw [this]
  exact hasSub_append_l b.data h

theorem strIncludes_append_r (a : String) {b n : String}
    (h : strIncludes b n = true) : strIncludes (a ++ b) n = true := by
  have : (a ++ b).data = a.data ++ b.data := rfl
  unfold strIncludes at h ⊢
  rw [this]
  exact hasSub_append_r a.data h

/-! ## Embedded regular-expression matchers

Each JS regex used by the static analyzer is embedded as a scanner
`List Char → Option (String × List Char)` that attempts a match anchored at
the head of the input, returning the captured group and the input remaining
after the whole match.  `matchAll` then reproduces
`String.prototype.matchAll`'s left-to-right non-overlapping scan. -/

/-- Matcher for the Python decorator patterns
`@server.tool()\s*\n\s*async def (\w+)` and
`@server.prompt()\s*\n\s*async def (\w+)`: after the literal decorator, the
maximal whitespace run must contain a newline and be followed by
`async def `, after which the maximal nonempty `\w` run is captured. -/
def tryPyDecor (decor : List Char) (cs : List Char) : Option (String × List Char) :=
  match dropLit decor cs with
  | none => none
  | some r1 =>
    if (r1.takeWhile isSpaceChar).contains '\n' then
      match dropLit "async def ".data (r1.dropWhile isSpaceChar) with
      | none => none
      | some r2 =>
        let w := r2.takeWhile isWordChar
        if w.isEmpty then none else some (⟨w⟩, r2.dropWhile isWordChar)
    else none

/-- The lazy part `(.*?)['"]\)` of the Python resource pattern: find the
closest quote-then-parenthesis, failing if a newline intervenes (`.` does not
match newlines). -/
def pyResScan (acc : List Char) : List Char → Option (List Char × List Char)
  | c :: d :: rest =>
    if isQuoteChar c && d == ')' then some (acc.reverse, rest)
    else if c == '\n' then none
    else pyResScan (c :: acc) (d :: rest)
  | _ => none

/-- Matcher for `@server.resource(['"](.*?)['"]\)`. -/
def tryPyResource (cs : List Char) : Option (String × List Char) :=
  match dropLit "@server.resource(".data cs with
  | none => none
  | some r1 =>
    match r1 with
    | q :: r2 =>
      if isQuoteChar q then
        match pyResScan [] r2 with
        | none => none
        | some (cap, rest) => some (⟨cap⟩, rest)
      else none
    | [] => none

/-- Matcher for `@server.tool()\s*\n\s*async def (\w+)`. -/
def tryPyTool : List Char → Option (String × List Char) :=
  tryPyDecor "@server.tool()".data

/-- Matcher for `@server.prompt()\s*\n\s*async def (\w+)`. -/
def tryPyPrompt : List Char → Option (String × List Char) :=
  tryPyDecor "@server.prompt()".data

/-- The tail `name:\s*['"](\w+)['"]` of the TypeScript tool/prompt patterns. -/
def tryTsNameTail (cs : List Char) : Option (String × List Char) :=
  match dropLit "name:".data cs with
  | none => none
  | some r1 =>
    match r1.dropWhile isSpaceChar with
    | q :: r3 =>
      if isQuoteChar q then
        let w := r3.takeWhile isWordChar
        if w.isEmpty then none
        else
          match r3.dropWhile isWordChar with
          | q2 :: rest => if isQuoteChar q2 then some (⟨w⟩, rest) else none
          | [] => none
      else none
    | [] => none

/-- The tail `uri:\s*['"]([^'"]+)['"]` of the TypeScript resource pattern. -/
def tryTsUriTail (cs : List Char) : Option (String × List Char) :=
  match dropLit "uri:".data cs with
  | none => none
  | some r1 =>
    match r1.dropWhile isSpaceChar with
    | q :: r3 =>
      if isQuoteChar q then
        let w := r3.takeWhile (fun c => !(isQuoteChar c))
        if w.isEmpty then none
        else
          match r3.dropWhile (fun c => !(isQuoteChar c)) with
          | q2 :: rest => if isQuoteChar q2 then some (⟨w⟩, rest) else none
          | [] => none
      else none
    | [] => none

/-- The lazy `[\s\S]*?` bridge of the TypeScript patterns: try the tail at
every position, nearest first (any character, including newlines, may be
skipped). -/
def tsLazyScan (tryTail : List Char → Option (String × List Char)) :
    List Char → Option (String × List Char)
  | [] => tryTail []
  | c :: rest =>
    match tryTail (c :: rest) with
    | some r => some r
    | none => tsLazyScan tryTail rest

/-- Matcher for the TypeScript call patterns
`server.tool({[\s\S]*?name:\s*['"](\w+)['"]` (and the `resource`/`prompt`
variants): a literal head followed by the lazy bridge and the given tail. -/
def tryTsCall (head : List Char) (tryTail : List Char → Option (String × List Char))
    (cs : List Char) : Option (String × List Char) :=
  match dropLit head cs with
  | none => none
  | some r1 => tsLazyScan tryTail r1

/-- Matcher for `server.tool(\x7b[\s\S]*?name:\s*['"](\w+)['"]`. -/
def tryTsTool : List Char → Option (String × List Char) :=
  tryTsCall "server.tool(\x7b".data tryTsNameTail

/-- Matcher for `server.resource(\x7b[\s\S]*?uri:\s*['"]([^'"]+)['"]`. -/
def tryTsResource : List Char → Option (String × List Char) :=
  tryTsCall "server.resource(\x7b".data tryTsUriTail

/-- Matcher for `server.prompt(\x7b[\s\S]*?name:\s*['"](\w+)['"]`. -/
def tryTsPrompt : List Char → Option (String × List Char) :=
  tryTsCall "server.prompt(\x7b".data tryTsNameTail

/-- Matcher for the Go pattern `mcp.NewTool(['"]([\w-]+)['"]`. -/
def tryGoTool (cs : List Char) : Option (String × List Char) :=
  match dropLit "mcp.NewTool(".data cs with
  | none => none
  | some r1 =>
    match r1 with
    | q :: r2 =>
      if isQuoteChar q then
        let w := r2.takeWhile (fun c => isWordChar c || c == '-')
        if w.isEmpty then none
        else
          match r2.dropWhile (fun c => isWordChar c || c == '-') with
          | q2 :: rest => if isQuoteChar q2 then some (⟨w⟩, rest) else none
          | [] => none
      else none
    | [] => none

/-- Matcher for the Rust pattern `#[tool(name\s*=\s*['"]([\w-]+)['"]`
(the literal head `#[tool(name` is followed by `\s*=\s*`, a quote, the
captured `[\w-]+` run and a quote). -/
def tryRustTool (cs : List Char) : Option (String × List Char) :=
  match dropLit "#[tool(name".data cs with
  | none => none
  | some r1 =>
    match r1.dropWhile isSpaceChar with
    | '=' :: r2 =>
      match r2.dropWhile isSpaceChar with
      | q :: r3 =>
        if isQuoteChar q then
          let w := r3.takeWhile (fun c => isWordChar c || c == '-')
          if w.isEmpty then none
          else
            match r3.dropWhile (fun c => isWordChar c || c == '-') with
            | q2 :: rest => if isQuoteChar q2 then some (⟨w⟩, rest) else none
            | [] => none
        else none
      | [] => none
    | _ => none

/-- One step budget per character suffices: every iteration either consumes
the whole (nonempty) match or advances one character. -/
def matchAllGo (tryAt : List Char → Option (String × List Char)) :
    Nat → List Char → List String
  | 0, _ => []
  | _ + 1, [] => []
  | fuel + 1, c :: cs =>
    match tryAt (c :: cs) with
    | some (cap, rest) =>
      if rest.length == (c :: cs).length then cap :: matchAllGo tryAt fuel cs
      else cap :: matchAllGo tryAt fuel rest
    | none => matchAllGo tryAt fuel cs

/-- `content.matchAll(regex)` collecting the first capture group of each
match, in order of occurrence. -/
def matchAll (tryAt : List Char → Option (String × List Char)) (s : String) :
    List String :=
  matchAllGo tryAt s.data.length s.data

/-! ## Core enumerations and the file-system model -/

/-- The supported languages (`SUPPORTED_LANGUAGES`). -/
inductive Lang
  | python
  | typescript
  | go
  | rust
deriving DecidableEq

/-- The supported architecture patterns (`SUPPORTED_PATTERNS`). -/
inductive Pattern
  | basic
  | enterprise
  | microservices
deriving DecidableEq

/-- The supported transports (`SUPPORTED_TRANSPORTS`). -/
inductive Transport
  | stdio
  | sse
  | http
deriving DecidableEq

/-- The string a transport interpolates into generated sources. -/
def transportStr : Transport → String
  | .stdio => "stdio"
  | .sse => "sse"
  | .http => "http"

/-- A path relative to the project directory, as a list of components (the
model of `path.join(projectPath, c1, c2, ...)`). -/
abbrev FPath := List String

/-- A project directory on disk: an association list from relative paths to
file contents, in the order the files were written. -/
abbrev FS := List (FPath × String)

/-- `fs.readFile` (guarded by `fs.pathExists` in the source; the two calls
are merged into one lookup here): the content of the first entry with the
given path. -/
def readFileFS : FS → FPath → Option String
  | [], _ => none
  | (q, c) :: rest, p => if p = q then some c else readFileFS rest p

/-- `fs.pathExists`. -/
def pathExistsFS (fs : FS) (p : FPath) : Bool := (readFileFS fs p).isSome

/-- `path.basename(projectPath).replace(/[-]/g, '_')` — the project-directory
name with hyphens replaced by underscores, as computed by `findFile` and
`validatePython` (the basename itself is passed in as `projName`). -/
def dashToUnderscore (s : String) : String :=
  ⟨s.data.map (fun c => if c == '-' then '_' else c)⟩

/-- `findFile(basePath, filename, subdir?)` from the diagram command: probe
`subdir/filename` (when a subdir is given), then `filename`, then
`<projName with hyphens→underscores>/filename`, returning the content of the
first file that exists (the source returns the path and then reads it; the
two steps are merged). -/
def findFile (fs : FS) (projName : String) (filename : String)
    (subdir : Option String) : Option String :=
  let paths :=
    (match subdir with
     | some d => [[d, filename], [filename]]
     | none => [[filename]]) ++ [[dashToUnderscore projName, filename]]
  paths.findSome? (readFileFS fs)

/-! ## Static analyzer (`analyzeProject` from the diagram command) -/

/-- The `ProjectAnalysis` record of the diagram command. -/
structure ProjectAnalysis where
  name : String
  language : Lang
  tools : List String
  resources : List String
  prompts : List String
deriving DecidableEq

/-- `analyzePython`: scan `server.py` for `@server.tool()`,
`@server.resource('...')` and `@server.prompt()` registrations. -/
def analyzePython (fs : FS) (projName : String) (a : ProjectAnalysis) :
    ProjectAnalysis :=
  match findFile fs projName "server.py" none with
  | none => a
  | some content =>
    ⟨a.name, a.language,
      a.tools ++ matchAll tryPyTool content,
      a.resources ++ matchAll tryPyResource content,
      a.prompts ++ matchAll tryPyPrompt content⟩

/-- `analyzeTypeScript`: scan `src/index.ts` (with `findFile` fallbacks) for
`server.tool(...)`, `server.resource(...)` and `server.prompt(...)` calls. -/
def analyzeTypeScript (fs : FS) (projName : String) (a : ProjectAnalysis) :
    ProjectAnalysis :=
  match findFile fs projName "index.ts" (some "src") with
  | none => a
  | some content =>
    ⟨a.name, a.language,
      a.tools ++ matchAll tryTsTool content,
      a.resources ++ matchAll tryTsResource content,
      a.prompts ++ matchAll tryTsPrompt content⟩

/-- `analyzeGo`: scan `main.go` for `mcp.NewTool('...')` calls (tools only). -/
def analyzeGo (fs : FS) (a : ProjectAnalysis) : ProjectAnalysis :=
  match readFileFS fs ["main.go"] with
  | none => a
  | some content =>
    ⟨a.name, a.language, a.tools ++ matchAll tryGoTool content,
      a.resources, a.prompts⟩

/-- `analyzeRust`: scan `src/main.rs` for `#[tool(name = "...")]` attributes
(tools only). -/
def analyzeRust (fs : FS) (a : ProjectAnalysis) : ProjectAnalysis :=
  match readFileFS fs ["src", "main.rs"] with
  | none => a
  | some content =>
    ⟨a.name, a.language, a.tools ++ matchAll tryRustTool content,
      a.resources, a.prompts⟩

/-- `analyzeProject(projectPath, lang)`: fresh empty analysis, dispatched to
the per-language analyzer. -/
def analyzeProject (fs : FS) (projName : String) (lang : Lang) :
    ProjectAnalysis :=
  let a : ProjectAnalysis := ⟨projName, lang, [], [], []⟩
  match lang with
  | .python => analyzePython fs projName a
  | .typescript => analyzeTypeScript fs projName a
  | .go => analyzeGo fs a
  | .rust => analyzeRust fs a

/-- `String.prototype.toLowerCase` (ASCII range), used by the Go snippet's
`namePascal.toLowerCase()`. -/
def jsToLowerCase (s : String) : String := ⟨s.data.map lowerAZ⟩

/-! ## Generated file contents (verbatim from the procedural generators) -/

/-- The generated `pyproject.toml` (Python generator). -/
def pyprojectToml (nameSnake : String) : String :=
  String.join ["[build-system]\nrequires = [\"setuptools>=61.0\", \"wheel\"]\nbuild-backend = \"setuptools.build_meta\"\n\n[project]\nname = \"",
    nameSnake,
    "\"\nversion = \"0.1.0\"\ndescription = \"MCP server created with MCPForge\"\nreadme = \"README.md\"\nrequires-python = \">=3.11\"\ndependencies = [\n    \"mcp>=1.0.0\",\n    \"fastmcp>=2.0.0\",\n]\n\n[project.optional-dependencies]\ndev = [\n    \"pytest>=8.0.0\",\n    \"pytest-asyncio>=0.24.0\",\n    \"ruff>=0.8.0\",\n]\n\n[tool.ruff]\nline-length = 100\ntarget-version = \"py311\"\n\n[tool.ruff.lint]\nselect = [\"E\", \"F\", \"I\", \"N\", \"W\"]\n"]

/-- The generated `<snake>/__init__.py`. -/
def pyInitPy (namePascal : String) : String :=
  String.join ["\"\"\"",
    namePascal,
    " MCP Server\"\"\"\n"]

/-- The generated `<snake>/__main__.py`. -/
def pyMainPy (namePascal : String) (transport : Transport) : String :=
  String.join ["\"\"\"Entry point for ",
    namePascal,
    " MCP Server\"\"\"\nfrom .server import server\n\nif __name__ == \"__main__\":\n    server.run(transport=\"",
    (transportStr transport),
    "\")\n"]

/-- The generated Python `README.md`. -/
def pyReadme (namePascal : String) (nameSnake : String) : String :=
  String.join ["# ",
    namePascal,
    "\n\nMCP server created with [MCPForge](https://github.com/Richardmsbr/mcpforge).\n\n## Installation\n\n```bash\npip install -e .\n```\n\n## Usage\n\n```bash\npython -m ",
    nameSnake,
    "\n```\n\n## Development\n\n```bash\npip install -e \".[dev]\"\npytest\n```\n"]

/-- The generated Python `.gitignore`. -/
def pyGitignore : String :=
  "__pycache__/\n*.py[cod]\n*$py.class\n*.egg-info/\ndist/\nbuild/\n.eggs/\n.pytest_cache/\n.ruff_cache/\n.venv/\nvenv/\n.env\n"

/-- `generatePythonBasicServer`: the `basic`-pattern `server.py`. -/
def pythonBasicServer (namePascal : String) (nameSnake : String) : String :=
  String.join ["\"\"\"",
    namePascal,
    " MCP Server\"\"\"\nfrom fastmcp import FastMCP\n\nserver = FastMCP(\"",
    nameSnake,
    "\")\n\n\n@server.tool()\nasync def hello(name: str = \"World\") -> str:\n    \"\"\"Say hello to someone.\n\n    Args:\n        name: The name to greet\n\n    Returns:\n        A greeting message\n    \"\"\"\n    return f\"Hello, \x7bname\x7d!\"\n\n\n@server.tool()\nasync def add(a: int, b: int) -> int:\n    \"\"\"Add two numbers.\n\n    Args:\n        a: First number\n        b: Second number\n\n    Returns:\n        The sum of a and b\n    \"\"\"\n    return a + b\n\n\n@server.resource(\"config://settings\")\nasync def get_settings() -> str:\n    \"\"\"Get server configuration settings.\"\"\"\n    return \"\"\"\n    \x7b\n        \"version\": \"0.1.0\",\n",
    "        \"name\": \"",
    nameSnake,
    "\",\n        \"created_with\": \"mcpforge\"\n    \x7d\n    \"\"\"\n"]

/-- `generatePythonEnterpriseServer`: the `enterprise`-pattern `server.py`. -/
def pythonEnterpriseServer (namePascal : String) (nameSnake : String) : String :=
  String.join ["\"\"\"",
    namePascal,
    " MCP Server - Enterprise Edition\"\"\"\nimport logging\nimport os\nfrom contextlib import asynccontextmanager\nfrom typing import AsyncIterator\n\nfrom fastmcp import FastMCP\nfrom fastmcp.security import OAuth2Provider\n\n# Configure logging\nlogging.basicConfig(\n    level=logging.INFO,\n    format=\"%(asctime)s - %(name)s - %(levelname)s - %(message)s\"\n)\nlogger = logging.getLogger(\"",
    nameSnake,
    "\")\n\n\n@asynccontextmanager\nasync def lifespan(server: FastMCP) -> AsyncIterator[dict]:\n    \"\"\"Manage server lifecycle - startup and shutdown.\"\"\"\n    logger.info(\"Starting ",
    namePascal,
    " server...\")\n\n    # Initialize resources (database connections, caches, etc.)\n    resources = \x7b\n        \"startup_time\": __import__(\"datetime\").datetime.now().isoformat(),\n    \x7d\n\n    yield resources\n\n    logger.info(\"Shutting down ",
    namePascal,
    " server...\")\n    # Cleanup resources\n\n\nserver = FastMCP(\n    \"",
    nameSnake,
    "\",\n    lifespan=lifespan,\n)\n\n# Configure OAuth2 authentication (if enabled)\nif os.getenv(\"OAUTH2_ENABLED\"):\n    server.use_auth(OAuth2Provider(\n        issuer=os.getenv(\"OAUTH2_ISSUER\", \"https://auth.example.com\"),\n        audience=os.getenv(\"OAUTH2_AUDIENCE\", \"",
    nameSnake,
    "\"),\n    ))\n\n\n@server.tool()\nasync def hello(name: str = \"World\") -> str:\n    \"\"\"Say hello to someone.\n\n    Args:\n        name: The name to greet\n\n    Returns:\n        A greeting message\n    \"\"\"\n    logger.info(f\"hello called with name=\x7bname\x7d\")\n    return f\"Hello, \x7bname\x7d!\"\n\n\n@server.tool()\nasync def health_check() -> dict:\n    \"\"\"Check server health status.\n\n    Returns:\n        Health status information\n    \"\"\"\n    return \x7b\n        \"status\": \"healthy\",\n        \"version\": \"0.1.0\",\n        \"uptime\": server.context.get(\"startup_time\", \"unknown\"),\n    \x7d\n\n\n@server.resource(\"config://settings\")\n",
    "async def get_settings() -> str:\n    \"\"\"Get server configuration settings.\"\"\"\n    return \"\"\"\n    \x7b\n        \"version\": \"0.1.0\",\n        \"name\": \"",
    nameSnake,
    "\",\n        \"created_with\": \"mcpforge\",\n        \"pattern\": \"enterprise\"\n    \x7d\n    \"\"\"\n\n\n@server.prompt()\nasync def system_prompt() -> str:\n    \"\"\"Get the system prompt for this server.\"\"\"\n    return \"\"\"You are an assistant with access to the ",
    namePascal,
    " MCP server.\n\nAvailable tools:\n- hello: Greet someone by name\n- health_check: Check server health status\n\nUse these tools to help the user with their requests.\"\"\"\n"]

/-- The generated TypeScript `README.md`. -/
def tsReadme (namePascal : String) : String :=
  String.join ["# ",
    namePascal,
    "\n\nMCP server created with [MCPForge](https://github.com/Richardmsbr/mcpforge).\n\n## Installation\n\n```bash\nnpm install\n```\n\n## Usage\n\n```bash\nnpm run build\nnpm start\n```\n\n## Development\n\n```bash\nnpm run dev\n```\n"]

/-- The generated TypeScript `.gitignore`. -/
def tsGitignore : String :=
  "node_modules/\ndist/\n.env\n*.log\n"

/-- `generateTypeScriptBasicServer`: the `basic`-pattern `src/index.ts`. -/
def tsBasicIndex (namePascal : String) (nameKebab : String) : String :=
  String.join ["/**\n * ",
    namePascal,
    " MCP Server\n * Created with MCPForge\n */\nimport \x7b Server \x7d from '@modelcontextprotocol/sdk/server/index.js';\nimport \x7b StdioServerTransport \x7d from '@modelcontextprotocol/sdk/server/stdio.js';\nimport \x7b\n  CallToolRequestSchema,\n  ListToolsRequestSchema,\n  ListResourcesRequestSchema,\n  ReadResourceRequestSchema,\n\x7d from '@modelcontextprotocol/sdk/types.js';\n\nconst server = new Server(\n  \x7b\n    name: '",
    nameKebab,
    "',\n    version: '0.1.0',\n  \x7d,\n  \x7b\n    capabilities: \x7b\n      tools: \x7b\x7d,\n      resources: \x7b\x7d,\n    \x7d,\n  \x7d\n);\n\n// List available tools\nserver.setRequestHandler(ListToolsRequestSchema, async () => \x7b\n  return \x7b\n    tools: [\n      \x7b\n        name: 'hello',\n        description: 'Say hello to someone',\n        inputSchema: \x7b\n          type: 'object',\n          properties: \x7b\n            name: \x7b\n              type: 'string',\n              description: 'The name to greet',\n              default: 'World',\n            \x7d,\n          \x7d,\n        \x7d,\n      \x7d,\n      \x7b\n        name: 'add',\n",
    "        description: 'Add two numbers',\n        inputSchema: \x7b\n          type: 'object',\n          properties: \x7b\n            a: \x7b type: 'number', description: 'First number' \x7d,\n            b: \x7b type: 'number', description: 'Second number' \x7d,\n          \x7d,\n          required: ['a', 'b'],\n        \x7d,\n      \x7d,\n    ],\n  \x7d;\n\x7d);\n\n// Handle tool calls\nserver.setRequestHandler(CallToolRequestSchema, async (request) => \x7b\n  const \x7b name, arguments: args \x7d = request.params;\n\n  switch (name) \x7b\n    case 'hello': \x7b\n      const greeting = `Hello, $\x7b(args as \x7b name?: string \x7d).name || 'World'\x7d!`;\n",
    "      return \x7b content: [\x7b type: 'text', text: greeting \x7d] \x7d;\n    \x7d\n    case 'add': \x7b\n      const \x7b a, b \x7d = args as \x7b a: number; b: number \x7d;\n      return \x7b content: [\x7b type: 'text', text: String(a + b) \x7d] \x7d;\n    \x7d\n    default:\n      throw new Error(`Unknown tool: $\x7bname\x7d`);\n  \x7d\n\x7d);\n\n// List available resources\nserver.setRequestHandler(ListResourcesRequestSchema, async () => \x7b\n  return \x7b\n    resources: [\n      \x7b\n        uri: 'config://settings',\n        name: 'Settings',\n        description: 'Server configuration settings',\n        mimeType: 'application/json',\n      \x7d,\n    ],\n  \x7d;\n\x7d);\n\n",
    "// Read resource content\nserver.setRequestHandler(ReadResourceRequestSchema, async (request) => \x7b\n  const \x7b uri \x7d = request.params;\n\n  if (uri === 'config://settings') \x7b\n    return \x7b\n      contents: [\n        \x7b\n          uri,\n          mimeType: 'application/json',\n          text: JSON.stringify(\n            \x7b\n              version: '0.1.0',\n              name: '",
    nameKebab,
    "',\n              created_with: 'mcpforge',\n            \x7d,\n            null,\n            2\n          ),\n        \x7d,\n      ],\n    \x7d;\n  \x7d\n\n  throw new Error(`Unknown resource: $\x7buri\x7d`);\n\x7d);\n\n// Start the server\nasync function main() \x7b\n  const transport = new StdioServerTransport();\n  await server.connect(transport);\n  console.error('",
    namePascal,
    " MCP server running on stdio');\n\x7d\n\nmain().catch(console.error);\n"]

/-- `generateTypeScriptEnterpriseServer`: the `enterprise`-pattern `src/index.ts`. -/
def tsEnterpriseIndex (namePascal : String) (nameKebab : String) : String :=
  String.join ["/**\n * ",
    namePascal,
    " MCP Server - Enterprise Edition\n * Created with MCPForge\n */\nimport \x7b Server \x7d from '@modelcontextprotocol/sdk/server/index.js';\nimport \x7b StdioServerTransport \x7d from '@modelcontextprotocol/sdk/server/stdio.js';\nimport \x7b\n  CallToolRequestSchema,\n  ListToolsRequestSchema,\n  ListResourcesRequestSchema,\n  ReadResourceRequestSchema,\n  ListPromptsRequestSchema,\n  GetPromptRequestSchema,\n\x7d from '@modelcontextprotocol/sdk/types.js';\n\nconst startupTime = new Date().toISOString();\n\nconst server = new Server(\n  \x7b\n    name: '",
    nameKebab,
    "',\n    version: '0.1.0',\n  \x7d,\n  \x7b\n    capabilities: \x7b\n      tools: \x7b\x7d,\n      resources: \x7b\x7d,\n      prompts: \x7b\x7d,\n    \x7d,\n  \x7d\n);\n\nconsole.error('Starting ",
    namePascal,
    " server...');\n\n// List available tools\nserver.setRequestHandler(ListToolsRequestSchema, async () => \x7b\n  return \x7b\n    tools: [\n      \x7b\n        name: 'hello',\n        description: 'Say hello to someone',\n        inputSchema: \x7b\n          type: 'object',\n          properties: \x7b\n            name: \x7b\n              type: 'string',\n              description: 'The name to greet',\n              default: 'World',\n            \x7d,\n          \x7d,\n        \x7d,\n      \x7d,\n      \x7b\n        name: 'health_check',\n        description: 'Check server health status',\n        inputSchema: \x7b\n          type: 'object',\n",
    "          properties: \x7b\x7d,\n        \x7d,\n      \x7d,\n    ],\n  \x7d;\n\x7d);\n\n// Handle tool calls\nserver.setRequestHandler(CallToolRequestSchema, async (request) => \x7b\n  const \x7b name, arguments: args \x7d = request.params;\n\n  switch (name) \x7b\n    case 'hello': \x7b\n      const userName = (args as \x7b name?: string \x7d).name || 'World';\n      console.error(`hello called with name=$\x7buserName\x7d`);\n      return \x7b content: [\x7b type: 'text', text: `Hello, $\x7buserName\x7d!` \x7d] \x7d;\n    \x7d\n    case 'health_check': \x7b\n      return \x7b\n        content: [\x7b\n          type: 'text',\n          text: JSON.stringify(\x7b\n",
    "            status: 'healthy',\n            version: '0.1.0',\n            uptime: startupTime,\n          \x7d, null, 2),\n        \x7d],\n      \x7d;\n    \x7d\n    default:\n      throw new Error(`Unknown tool: $\x7bname\x7d`);\n  \x7d\n\x7d);\n\n// List available resources\nserver.setRequestHandler(ListResourcesRequestSchema, async () => \x7b\n  return \x7b\n    resources: [\n      \x7b\n        uri: 'config://settings',\n        name: 'Settings',\n        description: 'Server configuration settings',\n        mimeType: 'application/json',\n      \x7d,\n    ],\n  \x7d;\n\x7d);\n\n// Read resource content\n",
    "server.setRequestHandler(ReadResourceRequestSchema, async (request) => \x7b\n  const \x7b uri \x7d = request.params;\n\n  if (uri === 'config://settings') \x7b\n    return \x7b\n      contents: [\x7b\n        uri,\n        mimeType: 'application/json',\n        text: JSON.stringify(\x7b\n          version: '0.1.0',\n          name: '",
    nameKebab,
    "',\n          created_with: 'mcpforge',\n          pattern: 'enterprise',\n        \x7d, null, 2),\n      \x7d],\n    \x7d;\n  \x7d\n\n  throw new Error(`Unknown resource: $\x7buri\x7d`);\n\x7d);\n\n// List available prompts\nserver.setRequestHandler(ListPromptsRequestSchema, async () => \x7b\n  return \x7b\n    prompts: [\n      \x7b\n        name: 'system',\n        description: 'System prompt for this server',\n      \x7d,\n    ],\n  \x7d;\n\x7d);\n\n// Get prompt content\nserver.setRequestHandler(GetPromptRequestSchema, async (request) => \x7b\n  const \x7b name \x7d = request.params;\n\n  if (name === 'system') \x7b\n    return \x7b\n      messages: [\x7b\n",
    "        role: 'user',\n        content: \x7b\n          type: 'text',\n          text: `You are an assistant with access to the ",
    namePascal,
    " MCP server.\n\nAvailable tools:\n- hello: Greet someone by name\n- health_check: Check server health status\n\nUse these tools to help the user with their requests.`,\n        \x7d,\n      \x7d],\n    \x7d;\n  \x7d\n\n  throw new Error(`Unknown prompt: $\x7bname\x7d`);\n\x7d);\n\n// Start the server\nasync function main() \x7b\n  const transport = new StdioServerTransport();\n  await server.connect(transport);\n  console.error('",
    namePascal,
    " MCP server running on stdio');\n\x7d\n\nmain().catch(console.error);\n"]

/-- The generated `go.mod`. -/
def goModFile (nameSnake : String) : String :=
  String.join ["module ",
    nameSnake,
    "\n\ngo 1.21\n\nrequire (\n    github.com/mark3labs/mcp-go v0.6.0\n)\n"]

/-- The generated `main.go`. -/
def goMainGo (namePascal : String) (nameSnake : String) : String :=
  String.join ["// ",
    namePascal,
    " MCP Server\n// Created with MCPForge\npackage main\n\nimport (\n    \"context\"\n    \"fmt\"\n    \"log\"\n\n    \"github.com/mark3labs/mcp-go/mcp\"\n    \"github.com/mark3labs/mcp-go/server\"\n)\n\nfunc main() \x7b\n    s := server.NewMCPServer(\n        \"",
    nameSnake,
    "\",\n        \"0.1.0\",\n    )\n\n    // Register tools\n    s.AddTool(mcp.NewTool(\"hello\",\n        mcp.WithDescription(\"Say hello to someone\"),\n        mcp.WithString(\"name\",\n            mcp.Description(\"The name to greet\"),\n            mcp.DefaultString(\"World\"),\n        ),\n    ), helloHandler)\n\n    s.AddTool(mcp.NewTool(\"add\",\n        mcp.WithDescription(\"Add two numbers\"),\n        mcp.WithNumber(\"a\", mcp.Description(\"First number\"), mcp.Required()),\n        mcp.WithNumber(\"b\", mcp.Description(\"Second number\"), mcp.Required()),\n    ), addHandler)\n\n    // Start server\n",
    "    if err := server.ServeStdio(s); err != nil \x7b\n        log.Fatalf(\"Server error: %v\", err)\n    \x7d\n\x7d\n\nfunc helloHandler(ctx context.Context, request mcp.CallToolRequest) (*mcp.CallToolResult, error) \x7b\n    name, _ := request.Params.Arguments[\"name\"].(string)\n    if name == \"\" \x7b\n        name = \"World\"\n    \x7d\n\n    return mcp.NewToolResultText(fmt.Sprintf(\"Hello, %s!\", name)), nil\n\x7d\n\nfunc addHandler(ctx context.Context, request mcp.CallToolRequest) (*mcp.CallToolResult, error) \x7b\n    a, _ := request.Params.Arguments[\"a\"].(float64)\n    b, _ := request.Params.Arguments[\"b\"].(float64)\n\n",
    "    return mcp.NewToolResultText(fmt.Sprintf(\"%v\", a+b)), nil\n\x7d\n"]

/-- The generated Go `README.md`. -/
def goReadme (namePascal : String) (nameSnake : String) : String :=
  String.join ["# ",
    namePascal,
    "\n\nMCP server created with [MCPForge](https://github.com/Richardmsbr/mcpforge).\n\n## Installation\n\n```bash\ngo mod tidy\n```\n\n## Usage\n\n```bash\ngo run .\n```\n\n## Build\n\n```bash\ngo build -o ",
    nameSnake,
    "\n```\n"]

/-- The generated Go `.gitignore`. -/
def goGitignore (nameSnake : String) : String :=
  String.join [nameSnake,
    "\n*.exe\n.env\n"]

/-- The generated `Cargo.toml`. -/
def cargoToml (nameSnake : String) : String :=
  String.join ["[package]\nname = \"",
    nameSnake,
    "\"\nversion = \"0.1.0\"\nedition = \"2021\"\ndescription = \"MCP server created with MCPForge\"\n\n[dependencies]\nrmcp = \x7b version = \"0.8\", features = [\"server\"] \x7d\ntokio = \x7b version = \"1\", features = [\"full\"] \x7d\nserde = \x7b version = \"1\", features = [\"derive\"] \x7d\nserde_json = \"1\"\n"]

/-- The generated `src/main.rs`. -/
def rustMainRs (namePascal : String) (nameSnake : String) : String :=
  String.join ["//! ",
    namePascal,
    " MCP Server\n//! Created with MCPForge\n\nuse rmcp::\x7bserver::Server, tool, Error, Result\x7d;\nuse serde::\x7bDeserialize, Serialize\x7d;\n\n#[derive(Debug, Serialize, Deserialize)]\nstruct HelloArgs \x7b\n    #[serde(default = \"default_name\")]\n    name: String,\n\x7d\n\nfn default_name() -> String \x7b\n    \"World\".to_string()\n\x7d\n\n#[derive(Debug, Serialize, Deserialize)]\nstruct AddArgs \x7b\n    a: f64,\n    b: f64,\n\x7d\n\n#[tool(name = \"hello\", description = \"Say hello to someone\")]\nasync fn hello(args: HelloArgs) -> Result<String> \x7b\n    Ok(format!(\"Hello, \x7b\x7d!\", args.name))\n\x7d\n\n",
    "#[tool(name = \"add\", description = \"Add two numbers\")]\nasync fn add(args: AddArgs) -> Result<String> \x7b\n    Ok(format!(\"\x7b\x7d\", args.a + args.b))\n\x7d\n\n#[tokio::main]\nasync fn main() -> Result<()> \x7b\n    let server = Server::new(\"",
    nameSnake,
    "\", \"0.1.0\")\n        .tool(hello)\n        .tool(add);\n\n    server.run_stdio().await\n\x7d\n"]

/-- The generated Rust `README.md`. -/
def rustReadme (namePascal : String) : String :=
  String.join ["# ",
    namePascal,
    "\n\nMCP server created with [MCPForge](https://github.com/Richardmsbr/mcpforge).\n\n## Installation\n\n```bash\ncargo build --release\n```\n\n## Usage\n\n```bash\ncargo run\n```\n"]

/-- The generated Rust `.gitignore`. -/
def rustGitignore : String :=
  "target/\nCargo.lock\n.env\n"

/-- The generated `package.json`: `JSON.stringify` of the manifest object with two-space indent. -/
def tsPackageJson (nameKebab : String) : String :=
  String.join ["\x7b\n  \"name\": \"",
    nameKebab,
    "\",\n  \"version\": \"0.1.0\",\n  \"description\": \"MCP server created with MCPForge\",\n  \"type\": \"module\",\n  \"main\": \"dist/index.js\",\n  \"scripts\": \x7b\n    \"build\": \"tsc\",\n    \"dev\": \"tsc --watch\",\n    \"start\": \"node dist/index.js\",\n    \"test\": \"vitest\",\n    \"lint\": \"eslint src --ext .ts\"\n  \x7d,\n  \"dependencies\": \x7b\n    \"@modelcontextprotocol/sdk\": \"^1.0.0\"\n  \x7d,\n  \"devDependencies\": \x7b\n    \"@types/node\": \"^22.0.0\",\n    \"typescript\": \"^5.7.0\",\n    \"vitest\": \"^2.1.0\",\n    \"eslint\": \"^9.0.0\"\n  \x7d\n\x7d"]

/-- The generated `tsconfig.json`: `JSON.stringify` of the options object with two-space indent. -/
def tsConfigJson : String :=
  "\x7b\n  \"compilerOptions\": \x7b\n    \"target\": \"ES2022\",\n    \"module\": \"ESNext\",\n    \"moduleResolution\": \"bundler\",\n    \"lib\": [\n      \"ES2022\"\n    ],\n    \"outDir\": \"./dist\",\n    \"rootDir\": \"./src\",\n    \"strict\": true,\n    \"esModuleInterop\": true,\n    \"skipLibCheck\": true,\n    \"declaration\": true\n  \x7d,\n  \"include\": [\n    \"src/**/*\"\n  ],\n  \"exclude\": [\n    \"node_modules\",\n    \"dist\"\n  ]\n\x7d"

/-- The `tool` snippet of `generatePythonSnippet`. -/
def pySnippetTool (nameSnake : String) (name : String) : String :=
  String.join ["@server.tool()\nasync def ",
    nameSnake,
    "(param: str) -> str:\n    \"\"\"Description of ",
    name,
    ".\n\n    Args:\n        param: Description of parameter\n\n    Returns:\n        Description of return value\n    \"\"\"\n    # Implementation here\n    return f\"Result: \x7bparam\x7d\""]

/-- The `resource` snippet of `generatePythonSnippet`. -/
def pySnippetResource (nameSnake : String) (name : String) : String :=
  String.join ["@server.resource(\"resource://",
    nameSnake,
    "\")\nasync def ",
    nameSnake,
    "_resource() -> str:\n    \"\"\"Get ",
    name,
    " resource.\"\"\"\n    return \"\"\"\n    \x7b\n        \"key\": \"value\"\n    \x7d\n    \"\"\""]

/-- The `prompt` snippet of `generatePythonSnippet`. -/
def pySnippetPrompt (nameSnake : String) (name : String) : String :=
  String.join ["@server.prompt()\nasync def ",
    nameSnake,
    "_prompt() -> str:\n    \"\"\"",
    name,
    " prompt template.\"\"\"\n    return \"\"\"Your prompt template here.\n\nUse \x7b\x7bvariable\x7d\x7d for template variables.\"\"\""]

/-- The `tool` snippet of `generateTypeScriptSnippet`. -/
def tsSnippetTool (name : String) : String :=
  String.join ["// Add to ListToolsRequestSchema handler:\n\x7b\n  name: '",
    name,
    "',\n  description: 'Description of ",
    name,
    "',\n  inputSchema: \x7b\n    type: 'object',\n    properties: \x7b\n      param: \x7b type: 'string', description: 'Description of parameter' \x7d,\n    \x7d,\n    required: ['param'],\n  \x7d,\n\x7d\n\n// Add to CallToolRequestSchema handler switch:\ncase '",
    name,
    "': \x7b\n  const \x7b param \x7d = args as \x7b param: string \x7d;\n  return \x7b content: [\x7b type: 'text', text: `Result: $\x7bparam\x7d` \x7d] \x7d;\n\x7d"]

/-- The `resource` snippet of `generateTypeScriptSnippet`. -/
def tsSnippetResource (name : String) : String :=
  String.join ["// Add to ListResourcesRequestSchema handler:\n\x7b\n  uri: 'resource://",
    name,
    "',\n  name: '",
    name,
    "',\n  description: 'Description of ",
    name,
    " resource',\n  mimeType: 'application/json',\n\x7d\n\n// Add to ReadResourceRequestSchema handler:\nif (uri === 'resource://",
    name,
    "') \x7b\n  return \x7b\n    contents: [\x7b\n      uri,\n      mimeType: 'application/json',\n      text: JSON.stringify(\x7b key: 'value' \x7d, null, 2),\n    \x7d],\n  \x7d;\n\x7d"]

/-- The `prompt` snippet of `generateTypeScriptSnippet`. -/
def tsSnippetPrompt (name : String) : String :=
  String.join ["// Add to ListPromptsRequestSchema handler:\n\x7b\n  name: '",
    name,
    "',\n  description: '",
    name,
    " prompt template',\n\x7d\n\n// Add to GetPromptRequestSchema handler:\nif (name === '",
    name,
    "') \x7b\n  return \x7b\n    messages: [\x7b\n      role: 'user',\n      content: \x7b type: 'text', text: 'Your prompt template here.' \x7d,\n    \x7d],\n  \x7d;\n\x7d"]

/-- The `tool` snippet of `generateGoSnippet`. -/
def goSnippetTool (name : String) (namePascal : String) : String :=
  String.join ["// Add tool registration\ns.AddTool(mcp.NewTool(\"",
    name,
    "\",\n    mcp.WithDescription(\"Description of ",
    name,
    "\"),\n    mcp.WithString(\"param\", mcp.Description(\"Description of parameter\")),\n), ",
    (jsToLowerCase namePascal),
    "Handler)\n\n// Add handler function\nfunc ",
    (jsToLowerCase namePascal),
    "Handler(ctx context.Context, request mcp.CallToolRequest) (*mcp.CallToolResult, error) \x7b\n    param, _ := request.Params.Arguments[\"param\"].(string)\n    return mcp.NewToolResultText(fmt.Sprintf(\"Result: %s\", param)), nil\n\x7d"]

/-- The `resource` snippet of `generateGoSnippet`. -/
def goSnippetResource : String :=
  "// Resource support requires additional implementation in mcp-go"

/-- The `prompt` snippet of `generateGoSnippet`. -/
def goSnippetPrompt : String :=
  "// Prompt support requires additional implementation in mcp-go"

/-- The `tool` snippet of `generateRustSnippet`. -/
def rustSnippetTool (namePascal : String) (name : String) (nameSnake : String) : String :=
  String.join ["#[derive(Debug, Serialize, Deserialize)]\nstruct ",
    namePascal,
    "Args \x7b\n    param: String,\n\x7d\n\n#[tool(name = \"",
    name,
    "\", description = \"Description of ",
    name,
    "\")]\nasync fn ",
    nameSnake,
    "(args: ",
    namePascal,
    "Args) -> Result<String> \x7b\n    Ok(format!(\"Result: \x7b\x7d\", args.param))\n\x7d\n\n// Add to server builder:\n// .tool(",
    nameSnake,
    ")"]

/-- The `resource` snippet of `generateRustSnippet`. -/
def rustSnippetResource : String :=
  "// Resource support - implement custom handler"

/-- The `prompt` snippet of `generateRustSnippet`. -/
def rustSnippetPrompt : String :=
  "// Prompt support - implement custom handler"

/-! ## Procedural generators (`generateProject` and the per-language writers)

Each generator is modelled as the list of (relative path, content) pairs it
writes, in write order.  `fs.ensureDir` calls have no observable effect in
this model. -/

/-- `generatePythonProject`: `pyproject.toml`, `<snake>/__init__.py`,
`<snake>/__main__.py`, `<snake>/server.py` (basic or enterprise),
`README.md`, `.gitignore`. -/
def generatePythonProject (nameSnake namePascal : String) (pattern : Pattern)
    (transport : Transport) : FS :=
  [ (["pyproject.toml"], pyprojectToml nameSnake),
    ([nameSnake, "__init__.py"], pyInitPy namePascal),
    ([nameSnake, "__main__.py"], pyMainPy namePascal transport),
    ([nameSnake, "server.py"],
      if pattern = Pattern.enterprise then pythonEnterpriseServer namePascal nameSnake
      else pythonBasicServer namePascal nameSnake),
    (["README.md"], pyReadme namePascal nameSnake),
    ([".gitignore"], pyGitignore) ]

/-- `generateTypeScriptProject`: `package.json`, `tsconfig.json`,
`src/index.ts` (basic or enterprise), `README.md`, `.gitignore`.  The
`transport` parameter is unused by the source. -/
def generateTypeScriptProject (nameKebab namePascal : String) (pattern : Pattern)
    (_transport : Transport) : FS :=
  [ (["package.json"], tsPackageJson nameKebab),
    (["tsconfig.json"], tsConfigJson),
    (["src", "index.ts"],
      if pattern = Pattern.enterprise then tsEnterpriseIndex namePascal nameKebab
      else tsBasicIndex namePascal nameKebab),
    (["README.md"], tsReadme namePascal),
    ([".gitignore"], tsGitignore) ]

/-- `generateGoProject`: `go.mod`, `main.go`, `README.md`, `.gitignore`.
Both `pattern` and `transport` are unused by the source. -/
def generateGoProject (nameSnake namePascal : String) (_pattern : Pattern)
    (_transport : Transport) : FS :=
  [ (["go.mod"], goModFile nameSnake),
    (["main.go"], goMainGo namePascal nameSnake),
    (["README.md"], goReadme namePascal nameSnake),
    ([".gitignore"], goGitignore nameSnake) ]

/-- `generateRustProject`: `Cargo.toml`, `src/main.rs`, `README.md`,
`.gitignore`.  Both `pattern` and `transport` are unused by the source. -/
def generateRustProject (nameSnake namePascal : String) (_pattern : Pattern)
    (_transport : Transport) : FS :=
  [ (["Cargo.toml"], cargoToml nameSnake),
    (["src", "main.rs"], rustMainRs namePascal nameSnake),
    (["README.md"], rustReadme namePascal),
    ([".gitignore"], rustGitignore) ]

/-- `generateProject(projectPath, name, lang, pattern, transport)`: compute
the name forms and dispatch to the per-language generator (the procedural
fallback used when no template tree exists). -/
def generateProject (name : String) (lang : Lang) (pattern : Pattern)
    (transport : Transport) : FS :=
  let nameSnake := toSnakeCase name
  let namePascal := toPascalCase name
  let nameKebab := toKebabCase name
  match lang with
  | .python => generatePythonProject nameSnake namePascal pattern transport
  | .typescript => generateTypeScriptProject nameKebab namePascal pattern transport
  | .go => generateGoProject nameSnake namePascal pattern transport
  | .rust => generateRustProject nameSnake namePascal pattern transport

/-! ## Structural validator (`validateProject` from the validate command) -/

/-- The `ValidationResult` record. -/
structure ValidationResult where
  valid : Bool
  errors : List String
  warnings : List String
deriving DecidableEq

/-- `result.errors.push(e); result.valid = false` — every error site in the
source also clears `valid`. -/
def pushError (r : ValidationResult) (e : String) : ValidationResult :=
  ⟨false, r.errors ++ [e], r.warnings⟩

/-- `result.warnings.push(w)` — warnings never touch `valid`. -/
def pushWarning (r : ValidationResult) (w : String) : ValidationResult :=
  ⟨r.valid, r.errors, r.warnings ++ [w]⟩

/-- `validateCommon`: README, `.gitignore` and `.env` checks (warnings only). -/
def validateCommon (fs : FS) (r : ValidationResult) : ValidationResult :=
  let r := if !(pathExistsFS fs ["README.md"]) then pushWarning r "Missing README.md" else r
  let r := if !(pathExistsFS fs [".gitignore"]) then pushWarning r "Missing .gitignore" else r
  if pathExistsFS fs [".env"] then
    pushWarning r ".env file found - ensure it is in .gitignore"
  else r

/-- `validatePython`: `pyproject.toml` existence (error, short-circuits),
MCP dependency substring, `requires-python` warning, `server.py` search over
three candidate paths, and the no-tools warning. -/
def validatePython (fs : FS) (projName : String) (r : ValidationResult) :
    ValidationResult :=
  match readFileFS fs ["pyproject.toml"] with
  | none => pushError r "Missing pyproject.toml"
  | some py =>
    let r := if !(strIncludes py "mcp") && !(strIncludes py "fastmcp") then
        pushError r "Missing MCP dependency (mcp or fastmcp)"
      else r
    let r := if !(strIncludes py "requires-python") then
        pushWarning r "Missing requires-python in pyproject.toml"
      else r
    let serverPaths : List FPath :=
      [[dashToUnderscore projName, "server.py"], ["src", "server.py"], ["server.py"]]
    match serverPaths.findSome? (readFileFS fs) with
    | some content =>
      if !(strIncludes content "@server.tool") && !(strIncludes content ".tool(") then
        pushWarning r "No tools defined in server"
      else r
    | none => pushError r "Missing server.py file"

/-- `validateTypeScript`: `package.json` existence, `JSON.parse` (the
abstract `parseDeps`; `none` models the parse exception propagating to the
command boundary), the `@modelcontextprotocol/sdk` dependency key in the
merged `dependencies`/`devDependencies`, the `tsconfig.json` warning,
`src/index.ts` existence, and the no-tools warning. -/
def validateTypeScript (parseDeps : String → Option (List String)) (fs : FS)
    (r : ValidationResult) : Option ValidationResult :=
  match readFileFS fs ["package.json"] with
  | none => some (pushError r "Missing package.json")
  | some pkg =>
    match parseDeps pkg with
    | none => none
    | some deps =>
      let r := if !(deps.contains "@modelcontextprotocol/sdk") then
          pushError r "Missing MCP dependency (@modelcontextprotocol/sdk)"
        else r
      let r := if !(pathExistsFS fs ["tsconfig.json"]) then
          pushWarning r "Missing tsconfig.json"
        else r
      match readFileFS fs ["src", "index.ts"] with
      | none => some (pushError r "Missing src/index.ts")
      | some content =>
        some (if !(strIncludes content "ListToolsRequestSchema")
                && !(strIncludes content ".tool(") then
            pushWarning r "No tools defined in server"
          else r)

/-- `validateGo`: `go.mod` existence, `mcp-go`/`go-sdk` dependency
substring, `main.go` existence, and the `AddTool` no-tools warning. -/
def validateGo (fs : FS) (r : ValidationResult) : ValidationResult :=
  match readFileFS fs ["go.mod"] with
  | none => pushError r "Missing go.mod"
  | some gomod =>
    let r := if !(strIncludes gomod "mcp-go") && !(strIncludes gomod "go-sdk") then
        pushError r "Missing MCP dependency (mcp-go or go-sdk)"
      else r
    match readFileFS fs ["main.go"] with
    | none => pushError r "Missing main.go"
    | some content =>
      if !(strIncludes content "AddTool") then
        pushWarning r "No tools defined in server"
      else r

/-- `validateRust`: `Cargo.toml` existence, `rmcp` dependency substring,
`src/main.rs` existence, and the `#[tool` no-tools warning. -/
def validateRust (fs : FS) (r : ValidationResult) : ValidationResult :=
  match readFileFS fs ["Cargo.toml"] with
  | none => pushError r "Missing Cargo.toml"
  | some cargo =>
    let r := if !(strIncludes cargo "rmcp") then
        pushError r "Missing MCP dependency (rmcp)"
      else r
    match readFileFS fs ["src", "main.rs"] with
    | none => pushError r "Missing src/main.rs"
    | some content =>
      if !(strIncludes content "#[tool") then
        pushWarning r "No tools defined in server"
      else r

/-- `validateProject(projectPath, lang)`: common checks, then the
language-specific checks.  The result is `none` exactly when the TypeScript
branch's `JSON.parse` throws. -/
def validateProject (parseDeps : String → Option (List String)) (fs : FS)
    (projName : String) (lang : Lang) : Option ValidationResult :=
  let r := validateCommon fs ⟨true, [], []⟩
  match lang with
  | .python => some (validatePython fs projName r)
  | .typescript => validateTypeScript parseDeps fs r
  | .go => some (validateGo fs r)
  | .rust => some (validateRust fs r)

/-! ## Template materializer (`copyTemplateFiles`) -/

/-- A template directory tree entry: a file with its raw text, or a
subdirectory with its entries (in `fs.readdir` order). -/
inductive TEntry
  | file (name : String) (content : String)
  | dir (name : String) (entries : List TEntry)

/-- The substitution context built by the `new` command (`Object.entries`
order). -/
abbrev TContext := List (String × String)

/-- `targetName.replace(new RegExp(pat, 'g'), repl)` for a literal pattern:
left-to-right, non-overlapping global replacement.  One fuel unit per
character suffices since every step consumes at least one character. -/
def replaceAllSub (pat repl : List Char) : Nat → List Char → List Char
  | 0, cs => cs
  | _ + 1, [] => []
  | fuel + 1, c :: cs =>
    match dropLit pat (c :: cs) with
    | some rest => repl ++ replaceAllSub pat repl fuel rest
    | none => c :: replaceAllSub pat repl fuel cs

/-- Global literal replacement on strings. -/
def strReplaceAll (s pat repl : String) : String :=
  ⟨replaceAllSub pat.data repl.data s.data.length s.data⟩

/-- The filename-substitution loop of `copyTemplateFiles`: for each context
entry `(key, value)`, replace every `__key__` in the name. -/
def substName (ctx : TContext) (n : String) : String :=
  ctx.foldl (fun acc kv => strReplaceAll acc ("__" ++ kv.1 ++ "__") kv.2) n

/-- `targetName.replace(/\.hbs$/, '')`: strip one trailing `.hbs`. -/
def stripHbs (n : String) : String :=
  match n.data.reverse with
  | 's' :: 'b' :: 'h' :: '.' :: rest => ⟨rest.reverse⟩
  | _ => n

/-- `copyTemplateFiles(templatePath, targetPath, context)` over a template
tree, as the list of written (relative path, rendered content) pairs.
`Handlebars.compile(content)(context)` is an external templating engine and
is modelled by the abstract `render` parameter. -/
def copyTEntry (render : String → TContext → String) (ctx : TContext) :
    TEntry → List (FPath × String)
  | .file n c => [([stripHbs (substName ctx n)], render c ctx)]
  | .dir n entries =>
    (entries.attach.map (fun e => copyTEntry render ctx e.1)).flatten.map
      (fun pc => (stripHbs (substName ctx n) :: pc.1, pc.2))
decreasing_by
  have h := List.sizeOf_lt_of_mem e.2
  simp only [TEntry.dir.sizeOf_spec]
  omega

/-- `copyTemplateFiles` over a list of sibling entries. -/
def copyTEntries (render : String → TContext → String) (ctx : TContext)
    (entries : List TEntry) : List (FPath × String) :=
  (entries.map (copyTEntry render ctx)).flatten

/-! ## Incremental add (`addCommand`): effect-trace model -/

/-- The capability kinds accepted by `add` (`SUPPORTED_TYPES`). -/
inductive AddType
  | tool
  | resource
  | prompt
deriving DecidableEq

/-- An observable effect of the add flow: a console line or a file write.
The per-language `addTo*` functions are modelled by their full effect
traces so that the absence of writes is a property of the trace, not of the
model. -/
inductive Effect
  | log (s : String)
  | write (path : FPath) (content : String)
deriving DecidableEq

/-- `name.replace(/[-]/g, '_').toLowerCase()` from `generatePythonSnippet`
and `generateRustSnippet`. -/
def addNameSnake (name : String) : String :=
  ⟨(name.data.map (fun c => if c == '-' then '_' else c)).map lowerAZ⟩

/-- `name.split('-').map(w => w.charAt(0).toUpperCase() + w.slice(1)).join('')`
from `generateGoSnippet`/`generateRustSnippet` (note: unlike `toPascalCase`,
this splits only on hyphens and leaves the segment tails untouched). -/
def splitDashAux : List Char → List (List Char)
  | [] => [[]]
  | c :: rest =>
    match splitDashAux rest with
    | [] => [[c]]
    | seg :: segs => if c == '-' then [] :: seg :: segs else (c :: seg) :: segs

/-- See `splitDashAux`. -/
def addNamePascal (name : String) : String :=
  String.join ((splitDashAux name.data).map (fun seg =>
    match seg with
    | [] => ""
    | c :: rest => ⟨upperAZ c :: rest⟩))

/-- `generatePythonSnippet(type, name)`. -/
def generatePythonSnippet (ty : AddType) (name : String) : String :=
  match ty with
  | .tool => pySnippetTool (addNameSnake name) name
  | .resource => pySnippetResource (addNameSnake name) name
  | .prompt => pySnippetPrompt (addNameSnake name) name

/-- `generateTypeScriptSnippet(type, name)`. -/
def generateTypeScriptSnippet (ty : AddType) (name : String) : String :=
  match ty with
  | .tool => tsSnippetTool name
  | .resource => tsSnippetResource name
  | .prompt => tsSnippetPrompt name

/-- `generateGoSnippet(type, name)`. -/
def generateGoSnippet (ty : AddType) (name : String) : String :=
  match ty with
  | .tool => goSnippetTool name (addNamePascal name)
  | .resource => goSnippetResource
  | .prompt => goSnippetPrompt

/-- `generateRustSnippet(type, name)`. -/
def generateRustSnippet (ty : AddType) (name : String) : String :=
  match ty with
  | .tool => rustSnippetTool (addNamePascal name) name (addNameSnake name)
  | .resource => rustSnippetResource
  | .prompt => rustSnippetPrompt

/-- `addToPython`: compute the snippet and print it (three framing lines and
the snippet; the `chalk` coloring is external presentation). -/
def addToPython (ty : AddType) (name : String) : List Effect :=
  [.log "", .log "Add this to your server.py:", .log "",
   .log (generatePythonSnippet ty name)]

/-- `addToTypeScript`. -/
def addToTypeScript (ty : AddType) (name : String) : List Effect :=
  [.log "", .log "Add this to your src/index.ts:", .log "",
   .log (generateTypeScriptSnippet ty name)]

/-- `addToGo`. -/
def addToGo (ty : AddType) (name : String) : List Effect :=
  [.log "", .log "Add this to your main.go:", .log "",
   .log (generateGoSnippet ty name)]

/-- `addToRust`. -/
def addToRust (ty : AddType) (name : String) : List Effect :=
  [.log "", .log "Add this to your src/main.rs:", .log "",
   .log (generateRustSnippet ty name)]

/-- The language dispatch of `addCommand` (after type validation and
language detection). -/
def addDispatch (lang : Lang) (ty : AddType) (name : String) : List Effect :=
  match lang with
  | .python => addToPython ty name
  | .typescript => addToTypeScript ty name
  | .go => addToGo ty name
  | .rust => addToRust ty name

/-- The file writes contained in an effect trace. -/
def effectWrites (es : List Effect) : List (FPath × String) :=
  es.filterMap (fun e =>
    match e with
    | .write p c => some (p, c)
    | .log _ => none)

/-- Replaying an effect trace against a project directory: writes update the
file, logs do nothing. -/
def writeFS (fs : FS) (p : FPath) (c : String) : FS :=
  match fs with
  | [] => [(p, c)]
  | (q, c0) :: rest => if p = q then (q, c) :: rest else (q, c0) :: writeFS rest p c

/-- Replay a whole trace. -/
def applyEffects (fs : FS) (es : List Effect) : FS :=
  es.foldl (fun fs e =>
    match e with
    | .write p c => writeFS fs p c
    | .log _ => fs) fs


/-! ## Chunked substring scanning

`hasSub` over a long text is evaluated chunk by chunk: a match of a
(nonempty) pattern in `a ++ b` either lies inside `a` or starts within the
last `pat.length - 1` characters of `a`.  `chunkScan` folds that
decomposition over a chunk list, so each evaluation step only traverses one
chunk. -/

theorem dropLit_none_of_lt {pat cs : List Char} (h : cs.length < pat.length) :
    dropLit pat cs = none := by
  induction pat generalizing cs with
  | nil => simp at h
  | cons p ps ih =>
    cases cs with
    | nil => rfl
    | cons c cs =>
      simp only [dropLit]
      by_cases hpc : (p == c) = true
      · simp only [hpc, if_true]
        exact ih (by simpa using Nat.lt_of_succ_lt_succ h)
      · simp [hpc]

theorem hasSub_false_of_lt {pat cs : List Char} (h : cs.length < pat.length) :
    hasSub pat cs = false := by
  induction cs with
  | nil =>
    cases pat with
    | nil => simp at h
    | cons p ps => simp [hasSub, dropLit]
  | cons c cs ih =>
    simp only [hasSub, Bool.or_eq_false_iff]
    refine ⟨?_, ih (Nat.lt_of_succ_lt h)⟩
    rw [dropLit_none_of_lt h]
    rfl

theorem dropLit_isSome_append {pat x : List Char} (b : List Char)
    (h : pat.length ≤ x.length) :
    (dropLit pat (x ++ b)).isSome = (dropLit pat x).isSome := by
  induction pat generalizing x with
  | nil => simp [dropLit]
  | cons p ps ih =>
    cases x with
    | nil => simp at h
    | cons c cs =>
      simp only [List.cons_append, dropLit]
      by_cases hpc : (p == c) = true
      · simp only [hpc, if_true]
        exact ih (by simpa using Nat.le_of_succ_le_succ h)
      · simp [hpc]

theorem hasSub_append_chunk (pat : List Char) (hpat : pat ≠ []) (a b : List Char) :
    hasSub pat (a ++ b)
      = (hasSub pat a || hasSub pat (a.drop (a.length + 1 - pat.length) ++ b)) := by
  induction a with
  | nil =>
    cases pat with
    | nil => exact absurd rfl hpat
    | cons p ps => simp [hasSub, dropLit]
  | cons c a ih =>
    by_cases hfit : pat.length ≤ a.length + 1
    · have hidx : (c :: a).length + 1 - pat.length = (a.length + 1 - pat.length) + 1 := by
        simp only [List.length_cons]
        omega
      rw [hidx]
      simp only [List.cons_append, hasSub, List.drop_succ_cons]
      rw [show c :: a.append b = (c :: a) ++ b from rfl,
        dropLit_isSome_append b (by simpa using hfit),
        show a.append b = a ++ b from rfl, ih]
      simp [Bool.or_assoc]
    · have hshort : hasSub pat (c :: a) = false :=
        hasSub_false_of_lt (by simp; omega)
      have hidx : (c :: a).length + 1 - pat.length = 0 := by
        simp only [List.length_cons]
        omega
      rw [hidx, hshort]
      simp

/-- Fold the chunk decomposition over a list of chunks, carrying the short
overlap window between consecutive chunks. -/
def chunkScan (pat : List Char) : List Char → List (List Char) → Bool
  | carry, [] => hasSub pat carry
  | carry, chunk :: rest =>
    hasSub pat (carry ++ chunk) ||
      chunkScan pat ((carry ++ chunk).drop ((carry ++ chunk).length + 1 - pat.length)) rest

theorem chunkScan_correct (pat : List Char) (hpat : pat ≠ []) :
    ∀ (chunks : List (List Char)) (carry : List Char),
      chunkScan pat carry chunks = hasSub pat (carry ++ chunks.flatten) := by
  intro chunks
  induction chunks with
  | nil => intro carry; simp [chunkScan]
  | cons chunk rest ih =>
    intro carry
    simp only [chunkScan, List.flatten_cons]
    rw [ih, ← List.append_assoc]
    exact (hasSub_append_chunk pat hpat (carry ++ chunk) rest.flatten).symm

theorem data_append (a b : String) : (a ++ b).data = a.data ++ b.data := rfl

theorem foldl_append_data (parts : List String) :
    ∀ init : String,
      (parts.foldl (fun r s => r ++ s) init).data
        = init.data ++ (parts.map String.data).flatten := by
  induction parts with
  | nil => intro init; simp
  | cons p ps ih =>
    intro init
    simp only [List.foldl_cons, List.map_cons, List.flatten_cons]
    rw [ih (init ++ p), data_append, List.append_assoc]

/-- `String.join` concatenates the chunk contents. -/
theorem join_data (parts : List String) :
    (String.join parts).data = (parts.map String.data).flatten := by
  have h := foldl_append_data parts ""
  simpa [String.join] using h

/-- Evaluate `includes` over a `String.join` of chunks by the chunked scan. -/
theorem strIncludes_join (parts : List String) (pat : String)
    (hpat : pat.data ≠ []) :
    strIncludes (String.join parts) pat
      = chunkScan pat.data [] (parts.map String.data) := by
  unfold strIncludes
  rw [join_data, chunkScan_correct pat.data hpat]
  rfl

/-- A needle contained in one chunk is contained in the join. -/
theorem strIncludes_join_of_mem {parts : List String} {part needle : String}
    (hmem : part ∈ parts) (h : strIncludes part needle = true) :
    strIncludes (String.join parts) needle = true := by
  obtain ⟨s, t, rfl⟩ := List.append_of_mem hmem
  unfold strIncludes at h ⊢
  rw [join_data]
  simp only [List.map_append, List.map_cons, List.flatten_append, List.flatten_cons]
  exact hasSub_append_r _ (hasSub_append_l _ h)

/-- If the literal head of one of the TypeScript call patterns occurs
nowhere in the scanned text, `matchAll` finds nothing. -/
theorem matchAllGo_tsCall_nil (head : List Char)
    (tryTail : List Char → Option (String × List Char)) :
    ∀ (fuel : Nat) (cs : List Char), hasSub head cs = false →
      matchAllGo (tryTsCall head tryTail) fuel cs = [] := by
  intro fuel
  induction fuel with
  | zero => intro cs _; rfl
  | succ fuel ih =>
    intro cs h
    cases cs with
    | nil => rfl
    | cons c cs =>
      simp only [hasSub, Bool.or_eq_false_iff] at h
      obtain ⟨h1, h2⟩ := h
      have hnone : dropLit head (c :: cs) = none :=
        Option.not_isSome_iff_eq_none.mp (by simp [h1])
      simp only [matchAllGo, tryTsCall, hnone]
      exact ih cs h2

/-- `matchAll` version of `matchAllGo_tsCall_nil`. -/
theorem matchAll_tsCall_nil (head : List Char)
    (tryTail : List Char → Option (String × List Char)) (s : String)
    (h : hasSub head s.data = false) :
    matchAll (tryTsCall head tryTail) s = [] :=
  matchAllGo_tsCall_nil head tryTail s.data.length s.data h

/-! ## Claims -/

set_option maxRecDepth 60000 in
/-- C5: procedurally generating a `basic` Python project named `hello-mcp`
and running the static analyzer over the generated directory yields exactly
`tools = ["hello", "add"]` (in that order),
`resources = ["config://settings"]` and no prompts. -/
theorem analyze_generated_python_basic_hello_mcp :
    (fun a => (a.tools, a.resources, a.prompts))
        (analyzeProject (generateProject "hello-mcp" Lang.python Pattern.basic Transport.stdio)
          "hello-mcp" Lang.python)
      = (["hello", "add"], ["config://settings"], []) := by
  decide

set_option maxRecDepth 60000 in
/-- C1 (code / spec divergence, at the failing input): for the freshly
generated TypeScript `basic` project `hello-mcp`, the static analyzer
extracts no tools, resources or prompts at all, even though the generator
emitted the tools `hello` and `add` and the resource `config://settings`
(their registration literals are present in the generated `src/index.ts`).
The analyzer's TypeScript patterns expect `server.tool(...)`-style builder
calls, a shape the TypeScript generator never writes — so the §3/§8
cross-component invariant fails for TypeScript. -/
theorem ts_analyzer_misses_generated_capabilities :
    (fun a => (a.tools, a.resources, a.prompts))
        (analyzeProject (generateProject "hello-mcp" Lang.typescript Pattern.basic Transport.stdio)
          "hello-mcp" Lang.typescript)
      = ([], [], []) ∧
    (readFileFS (generateProject "hello-mcp" Lang.typescript Pattern.basic Transport.stdio)
        ["src", "index.ts"]).map
      (fun c => (strIncludes c "name: 'hello'", strIncludes c "name: 'add'",
        strIncludes c "uri: 'config://settings'"))
      = some (true, true, true) := by
  have hk : toKebabCase "hello-mcp" = "hello-mcp" := by decide
  have hp : toPascalCase "hello-mcp" = "HelloMcp" := by decide
  have hfs : generateProject "hello-mcp" Lang.typescript Pattern.basic Transport.stdio
      = generateTypeScriptProject "hello-mcp" "HelloMcp" Pattern.basic Transport.stdio := by
    simp [generateProject, hk, hp]
  have htool : hasSub "server.tool(\x7b".data (tsBasicIndex "HelloMcp" "hello-mcp").data
      = false := by
    have h : strIncludes (tsBasicIndex "HelloMcp" "hello-mcp") "server.tool(\x7b" = false := by
      unfold tsBasicIndex
      rw [strIncludes_join]
      · decide
      · decide
    exact h
  have hres : hasSub "server.resource(\x7b".data (tsBasicIndex "HelloMcp" "hello-mcp").data
      = false := by
    have h : strIncludes (tsBasicIndex "HelloMcp" "hello-mcp") "server.resource(\x7b" = false := by
      unfold tsBasicIndex
      rw [strIncludes_join]
      · decide
      · decide
    exact h
  have hpr : hasSub "server.prompt(\x7b".data (tsBasicIndex "HelloMcp" "hello-mcp").data
      = false := by
    have h : strIncludes (tsBasicIndex "HelloMcp" "hello-mcp") "server.prompt(\x7b" = false := by
      unfold tsBasicIndex
      rw [strIncludes_join]
      · decide
      · decide
    exact h
  have hfind : readFileFS (generateTypeScriptProject "hello-mcp" "HelloMcp" Pattern.basic
        Transport.stdio) ["src", "index.ts"] = some (tsBasicIndex "HelloMcp" "hello-mcp") := by
    simp [generateTypeScriptProject, readFileFS]
  have hff : findFile (generateTypeScriptProject "hello-mcp" "HelloMcp" Pattern.basic
        Transport.stdio) "hello-mcp" "index.ts" (some "src")
      = some (tsBasicIndex "HelloMcp" "hello-mcp") := by
    unfold findFile
    simp only [List.cons_append, List.nil_append, List.findSome?_cons, hfind]
  constructor
  · rw [hfs]
    simp only [analyzeProject, analyzeTypeScript, hff, tryTsTool, tryTsResource, tryTsPrompt]
    rw [matchAll_tsCall_nil _ _ _ htool, matchAll_tsCall_nil _ _ _ hres,
      matchAll_tsCall_nil _ _ _ hpr]
    rfl
  · rw [hfs, hfind]
    have h1 : strIncludes (tsBasicIndex "HelloMcp" "hello-mcp") "name: 'hello'" = true := by
      unfold tsBasicIndex
      rw [strIncludes_join]
      · decide
      · decide
    have h2 : strIncludes (tsBasicIndex "HelloMcp" "hello-mcp") "name: 'add'" = true := by
      unfold tsBasicIndex
      rw [strIncludes_join]
      · decide
      · decide
    have h3 : strIncludes (tsBasicIndex "HelloMcp" "hello-mcp")
        "uri: 'config://settings'" = true := by
      unfold tsBasicIndex
      rw [strIncludes_join]
      · decide
      · decide
    simp [h1, h2, h3]

/-- C6: for every project name, language and transport, procedural
generation with the `microservices` pattern produces exactly the same file
set and contents as generation with the `basic` pattern (there is no
distinct `microservices` branch; the server-content conditionals only test
for `enterprise`). -/
theorem microservices_generation_eq_basic (name : String) (lang : Lang)
    (transport : Transport) :
    generateProject name lang Pattern.microservices transport
      = generateProject name lang Pattern.basic transport := by
  cases lang <;> rfl

/-- C8: materializing a template directory `__projectNameSnake__` containing
the file `__projectNameSnake__.conf.hbs`, with a context binding
`projectNameSnake` to `foo_bar`, writes exactly one file, at the
target-relative path `foo_bar/foo_bar.conf` (placeholder substitution in
both the directory and file name, and the `.hbs` marker stripped), whatever
the templating engine renders for the contents. -/
theorem template_name_substitution_roundtrip
    (render : String → TContext → String) (content : String) :
    (copyTEntries render [("projectNameSnake", "foo_bar")]
        [TEntry.dir "__projectNameSnake__"
          [TEntry.file "__projectNameSnake__.conf.hbs" content]]).map Prod.fst
      = [["foo_bar", "foo_bar.conf"]] := by
  simp only [copyTEntries, copyTEntry, List.attach, List.attachWith, List.map,
    List.flatten, List.append_nil, List.map_cons, List.map_nil]
  decide

/-- C10: for every language, capability type and name, the add flow only
prints a code snippet: its effect trace contains no file writes, so
replaying it against any project directory leaves the directory unchanged. -/
theorem add_command_writes_nothing (lang : Lang) (ty : AddType) (name : String)
    (fs : FS) :
    effectWrites (addDispatch lang ty name) = [] ∧
    applyEffects fs (addDispatch lang ty name) = fs := by
  cases lang <;> cases ty <;> exact ⟨rfl, rfl⟩

/-- A character allowed in a valid project name: letters, digits, hyphens,
underscores. -/
def isNameChar (c : Char) : Bool :=
  isUpperAZ c || isLowerAZ c || isDigit09 c || c == '-' || c == '_'

/-- C9: for every valid project name `N`, whenever `toKebabCase N` and `N`
decompose into the same `[-_]`-separated segments, `toPascalCase`
capitalizes them identically: `toPascalCase (toKebabCase N) = toPascalCase N`.
This holds because `toPascalCase` is a function of the segment decomposition
alone. -/
theorem toPascal_toKebab_agrees_on_equal_segments (N : String)
    (hvalid : N ≠ "" ∧ N.data.all isNameChar = true)
    (hsegs : splitSegs (toKebabCase N) = splitSegs N) :
    toPascalCase (toKebabCase N) = toPascalCase N := by
  unfold toPascalCase
  rw [hsegs]

/-- C9 witness: `N = "my_project"` is a valid name whose kebab form
`my-project` has the same segments, and `toPascalCase` agrees on the two. -/
theorem toPascal_toKebab_witness :
    ("my_project" ≠ "" ∧ "my_project".data.all isNameChar = true) ∧
    splitSegs (toKebabCase "my_project") = splitSegs "my_project" ∧
    toPascalCase (toKebabCase "my_project") = toPascalCase "my_project" :=
  ⟨by decide, by decide,
    toPascal_toKebab_agrees_on_equal_segments "my_project" (by decide) (by decide)⟩

/-- A needle contained in the head chunk is contained in the join. -/
theorem strIncludes_join_cons_head {p needle : String} (ps : List String)
    (h : strIncludes p needle = true) :
    strIncludes (String.join (p :: ps)) needle = true := by
  unfold strIncludes at h ⊢
  rw [join_data, List.map_cons, List.flatten_cons]
  exact hasSub_append_l _ h

/-- A needle contained in the tail chunks is contained in the join. -/
theorem strIncludes_join_cons_tail (p : String) {ps : List String} {needle : String}
    (h : strIncludes (String.join ps) needle = true) :
    strIncludes (String.join (p :: ps)) needle = true := by
  unfold strIncludes at h ⊢
  rw [join_data] at h ⊢
  rw [List.map_cons, List.flatten_cons]
  exact hasSub_append_r _ h

set_option maxRecDepth 60000 in
/-- C3 counterexample: the claim fails for languages other than Python, at
the project name `my-server`.  The Go generator ignores its `pattern`
argument: the `enterprise` output is byte-for-byte the `basic` output, and
no generated Go file even mentions `health_check` or a prompt — so no
lifecycle hook, health-check tool, authentication wiring or example prompt
is emitted.  And no file of the generated TypeScript `enterprise` project
contains the text `auth` or `Auth` at all, so the TypeScript enterprise
server carries no authentication wiring either. -/
theorem enterprise_feature_set_counterexample :
    generateProject "my-server" Lang.go Pattern.enterprise Transport.stdio
      = generateProject "my-server" Lang.go Pattern.basic Transport.stdio ∧
    ((generateProject "my-server" Lang.go Pattern.enterprise Transport.stdio).all
      (fun pc => !(strIncludes pc.2 "health_check"))) = true ∧
    ((generateProject "my-server" Lang.go Pattern.enterprise Transport.stdio).all
      (fun pc => !(strIncludes pc.2 "prompt"))) = true ∧
    ((generateProject "my-server" Lang.typescript Pattern.enterprise Transport.stdio).all
      (fun pc => !(strIncludes pc.2 "auth") && !(strIncludes pc.2 "Auth"))) = true := by
  refine ⟨rfl, by decide, by decide, ?_⟩
  have hk : toKebabCase "my-server" = "my-server" := by decide
  have hp : toPascalCase "my-server" = "MyServer" := by decide
  have h1 : strIncludes (tsEnterpriseIndex "MyServer" "my-server") "auth" = false := by
    unfold tsEnterpriseIndex
    rw [strIncludes_join]
    · decide
    · decide
  have h2 : strIncludes (tsEnterpriseIndex "MyServer" "my-server") "Auth" = false := by
    unfold tsEnterpriseIndex
    rw [strIncludes_join]
    · decide
    · decide
  simp only [generateProject, generateTypeScriptProject, hk, hp]
  simp only [List.all_cons, List.all_nil, Bool.and_eq_true, Bool.and_true]
  refine ⟨by decide, by decide, ?_, by decide, by decide⟩
  simp [h1, h2]

set_option maxRecDepth 60000 in
/-- C3 as amended: only the Python generator's `enterprise` pattern emits
the full feature set — a structured startup/shutdown lifecycle hook
(`lifespan`), a health-check tool, environment-flag-driven authentication
wiring (`OAUTH2_ENABLED`) and one example prompt, together with the basic
greeting tool and example resource.  The TypeScript enterprise server emits
a health-check tool and one example prompt (but, per the counterexample, no
authentication wiring), and the Go and Rust generators ignore the pattern
argument entirely and always emit the basic shape. -/
theorem python_enterprise_feature_set :
    (∀ namePascal nameSnake : String,
      strIncludes (pythonEnterpriseServer namePascal nameSnake)
          "@asynccontextmanager\nasync def lifespan(server: FastMCP) -> AsyncIterator[dict]:"
        = true ∧
      strIncludes (pythonEnterpriseServer namePascal nameSnake)
          "@server.tool()\nasync def health_check() -> dict:" = true ∧
      strIncludes (pythonEnterpriseServer namePascal nameSnake)
          "if os.getenv(\"OAUTH2_ENABLED\"):\n    server.use_auth(OAuth2Provider(" = true ∧
      strIncludes (pythonEnterpriseServer namePascal nameSnake)
          "@server.prompt()\nasync def system_prompt() -> str:" = true ∧
      strIncludes (pythonEnterpriseServer namePascal nameSnake)
          "@server.tool()\nasync def hello(name: str = \"World\") -> str:" = true ∧
      strIncludes (pythonEnterpriseServer namePascal nameSnake)
          "@server.resource(\"config://settings\")" = true) ∧
    (∀ namePascal nameKebab : String,
      strIncludes (tsEnterpriseIndex namePascal nameKebab)
          "name: 'health_check',\n        description: 'Check server health status',"
        = true ∧
      strIncludes (tsEnterpriseIndex namePascal nameKebab)
          "server.setRequestHandler(ListPromptsRequestSchema" = true ∧
      strIncludes (tsEnterpriseIndex namePascal nameKebab)
          "name: 'system',\n        description: 'System prompt for this server',"
        = true) ∧
    (∀ nameSnake namePascal transport,
      generateGoProject nameSnake namePascal Pattern.enterprise transport
        = generateGoProject nameSnake namePascal Pattern.basic transport) ∧
    (∀ nameSnake namePascal transport,
      generateRustProject nameSnake namePascal Pattern.enterprise transport
        = generateRustProject nameSnake namePascal Pattern.basic transport) := by
  refine ⟨?_, ?_, fun _ _ _ => rfl, fun _ _ _ => rfl⟩
  · intro np ns
    unfold pythonEnterpriseServer
    refine ⟨?_, ?_, ?_, ?_, ?_, ?_⟩ <;>
      repeat first
        | exact strIncludes_join_cons_head _ (by decide)
        | apply strIncludes_join_cons_tail
  · intro np nk
    unfold tsEnterpriseIndex
    refine ⟨?_, ?_, ?_⟩ <;>
      repeat first
        | exact strIncludes_join_cons_head _ (by decide)
        | apply strIncludes_join_cons_tail

set_option maxRecDepth 60000 in
/-- C4 counterexample: for the project name `MyServer`, generating the
Python `enterprise` project and validating the resulting directory yields
an error.  The generator writes the server to `my_server/server.py`
(snake-case of the name) but the validator searches
`basename.replace(/[-]/g,'_')/server.py` = `MyServer/server.py`, so
validation reports `Missing server.py file` and `valid = false`. -/
theorem validate_generated_python_enterprise_fails_on_uppercase_name :
    validateProject (fun _ => some ["@modelcontextprotocol/sdk"])
      (generateProject "MyServer" Lang.python Pattern.enterprise Transport.stdio)
      "MyServer" Lang.python
      = some ⟨false, ["Missing server.py file"], []⟩ := by
  decide

/-- A project name with no ASCII uppercase letter and no leading underscore. -/
def ValidProjectName (name : String) : Prop :=
  name.data.all (fun c => !(isUpperAZ c)) = true ∧ name.data.head? ≠ some '_'

theorem lowerAZ_eq_self {c : Char} (h : isUpperAZ c = false) : lowerAZ c = c := by
  simp [lowerAZ, h]

theorem insertUnderscores_eq_self {cs : List Char}
    (h : cs.all (fun c => !(isUpperAZ c)) = true) : insertUnderscores cs = cs := by
  induction cs with
  | nil => rfl
  | cons c cs ih =>
    simp only [List.all_cons, Bool.and_eq_true, Bool.not_eq_true'] at h
    unfold insertUnderscores at ih ⊢
    rw [List.foldr_cons, ih h.2, h.1]
    simp

theorem map_lowerAZ_eq_self {cs : List Char}
    (h : cs.all (fun c => !(isUpperAZ c)) = true) : cs.map lowerAZ = cs := by
  induction cs with
  | nil => rfl
  | cons c cs ih =>
    simp only [List.all_cons, Bool.and_eq_true, Bool.not_eq_true'] at h
    rw [List.map_cons, ih h.2, lowerAZ_eq_self h.1]

theorem dropLeadingUnderscore_eq_self {cs : List Char} (h : cs.head? ≠ some '_') :
    dropLeadingUnderscore cs = cs := by
  cases cs with
  | nil => rfl
  | cons c cs' =>
    have hc : ¬(c = '_') := by
      intro hc
      exact h (by simp [hc])
    simp [dropLeadingUnderscore, hc]

/-- On valid names, the validator's `basename.replace(/[-]/g,'_')` agrees
with the generator's `toSnakeCase`. -/
theorem dashToUnderscore_eq_toSnakeCase {name : String} (h : ValidProjectName name) :
    dashToUnderscore name = toSnakeCase name := by
  obtain ⟨h1, h2⟩ := h
  unfold dashToUnderscore toSnakeCase
  rw [insertUnderscores_eq_self h1, map_lowerAZ_eq_self h1,
    dropLeadingUnderscore_eq_self h2]

/-- `JSON.parse` finds the `@modelcontextprotocol/sdk` key in every
generated `package.json`. -/
def ParsesGeneratedPackageJson (parseDeps : String → Option (List String)) : Prop :=
  ∀ kebab : String, ∃ deps, parseDeps (tsPackageJson kebab) = some deps ∧
    deps.contains "@modelcontextprotocol/sdk" = true

set_option maxRecDepth 60000 in
/-- C4 as amended: for every language and transport, and for every project
name without ASCII uppercase letters and not beginning with an underscore
(so that the validator's `basename.replace(/[-]/g,'_')` agrees with the
generator's `toSnakeCase`), generating an `enterprise` project and running
the structural validator on the resulting directory yields no errors and no
warnings at all — in particular zero errors and no "No tools defined in
server" warning — provided `JSON.parse` finds the
`@modelcontextprotocol/sdk` key in the generated `package.json`. -/
theorem validate_generated_enterprise_clean
    (parseDeps : String → Option (List String)) (name : String)
    (hname : ValidProjectName name) (lang : Lang) (transport : Transport)
    (hparse : ParsesGeneratedPackageJson parseDeps) :
    validateProject parseDeps (generateProject name lang Pattern.enterprise transport)
      name lang = some ⟨true, [], []⟩ := by
  have hsnake := dashToUnderscore_eq_toSnakeCase hname
  cases lang with
  | python =>
    have hmcp : strIncludes (pyprojectToml (toSnakeCase name)) "mcp" = true := by
      unfold pyprojectToml
      repeat first
        | exact strIncludes_join_cons_head _ (by decide)
        | apply strIncludes_join_cons_tail
    have hreq : strIncludes (pyprojectToml (toSnakeCase name)) "requires-python" = true := by
      unfold pyprojectToml
      repeat first
        | exact strIncludes_join_cons_head _ (by decide)
        | apply strIncludes_join_cons_tail
    have htool : strIncludes (pythonEnterpriseServer (toPascalCase name) (toSnakeCase name))
        "@server.tool" = true := by
      unfold pythonEnterpriseServer
      repeat first
        | exact strIncludes_join_cons_head _ (by decide)
        | apply strIncludes_join_cons_tail
    simp [validateProject, validateCommon, validatePython, generateProject,
      generatePythonProject, pathExistsFS, readFileFS, hsnake, hmcp, hreq, htool,
      pushWarning, pushError]
  | typescript =>
    obtain ⟨deps, hpd, hdep⟩ := hparse (toKebabCase name)
    have hlt : strIncludes (tsEnterpriseIndex (toPascalCase name) (toKebabCase name))
        "ListToolsRequestSchema" = true := by
      unfold tsEnterpriseIndex
      repeat first
        | exact strIncludes_join_cons_head _ (by decide)
        | apply strIncludes_join_cons_tail
    have hmem : "@modelcontextprotocol/sdk" ∈ deps := by simpa using hdep
    simp [validateProject, validateCommon, validateTypeScript, generateProject,
      generateTypeScriptProject, pathExistsFS, readFileFS, hpd, hdep, hmem, hlt,
      pushWarning, pushError]
  | go =>
    have hdep : strIncludes (goModFile (toSnakeCase name)) "mcp-go" = true := by
      unfold goModFile
      repeat first
        | exact strIncludes_join_cons_head _ (by decide)
        | apply strIncludes_join_cons_tail
    have htool : strIncludes (goMainGo (toPascalCase name) (toSnakeCase name))
        "AddTool" = true := by
      unfold goMainGo
      repeat first
        | exact strIncludes_join_cons_head _ (by decide)
        | apply strIncludes_join_cons_tail
    simp [validateProject, validateCommon, validateGo, generateProject,
      generateGoProject, pathExistsFS, readFileFS, hdep, htool,
      pushWarning, pushError]
  | rust =>
    have hdep : strIncludes (cargoToml (toSnakeCase name)) "rmcp" = true := by
      unfold cargoToml
      repeat first
        | exact strIncludes_join_cons_head _ (by decide)
        | apply strIncludes_join_cons_tail
    have htool : strIncludes (rustMainRs (toPascalCase name) (toSnakeCase name))
        "#[tool" = true := by
      unfold rustMainRs
      repeat first
        | exact strIncludes_join_cons_head _ (by decide)
        | apply strIncludes_join_cons_tail
    simp [validateProject, validateCommon, validateRust, generateProject,
      generateRustProject, pathExistsFS, readFileFS, hdep, htool,
      pushWarning, pushError]

/-- C4 witness: the amended theorem applied at the concrete name
`my-server`, Python, stdio. -/
theorem validate_generated_enterprise_clean_witness :
    validateProject (fun _ => some ["@modelcontextprotocol/sdk"])
      (generateProject "my-server" Lang.python Pattern.enterprise Transport.stdio)
      "my-server" Lang.python = some ⟨true, [], []⟩ :=
  validate_generated_enterprise_clean (fun _ => some ["@modelcontextprotocol/sdk"])
    "my-server" ⟨by decide, by decide⟩ Lang.python Transport.stdio
    (fun _ => ⟨["@modelcontextprotocol/sdk"], rfl, by decide⟩)

/-- The derived-field invariant: `valid` mirrors emptiness of `errors`. -/
def ResultInv (r : ValidationResult) : Prop := r.valid = r.errors.isEmpty

theorem inv_pushError (r : ValidationResult) (e : String) : ResultInv (pushError r e) := by
  obtain ⟨v, es, ws⟩ := r
  unfold ResultInv pushError
  cases es <;> rfl

theorem inv_pushWarning (r : ValidationResult) (w : String) (h : ResultInv r) :
    ResultInv (pushWarning r w) := h

theorem inv_validateCommon (fs : FS) (r : ValidationResult) (h : ResultInv r) :
    ResultInv (validateCommon fs r) := by
  unfold validateCommon
  split_ifs <;>
    first
      | exact h
      | exact inv_pushWarning _ _ h
      | exact inv_pushWarning _ _ (inv_pushWarning _ _ h)
      | exact inv_pushWarning _ _ (inv_pushWarning _ _ (inv_pushWarning _ _ h))

theorem inv_validatePython (fs : FS) (n : String) (r : ValidationResult)
    (h : ResultInv r) : ResultInv (validatePython fs n r) := by
  unfold validatePython
  cases hman : readFileFS fs ["pyproject.toml"] with
  | none => exact inv_pushError _ _
  | some py =>
    dsimp only
    cases hps : List.findSome? (readFileFS fs)
        [[dashToUnderscore n, "server.py"], ["src", "server.py"], ["server.py"]] with
    | none =>
      dsimp only
      split_ifs <;>
        first
          | exact h
          | exact inv_pushError _ _
          | exact inv_pushWarning _ _ h
          | exact inv_pushWarning _ _ (inv_pushError _ _)
          | exact inv_pushWarning _ _ (inv_pushWarning _ _ h)
          | exact inv_pushWarning _ _ (inv_pushWarning _ _ (inv_pushError _ _))
    | some content =>
      dsimp only
      split_ifs <;>
        first
          | exact h
          | exact inv_pushError _ _
          | exact inv_pushWarning _ _ h
          | exact inv_pushWarning _ _ (inv_pushError _ _)
          | exact inv_pushWarning _ _ (inv_pushWarning _ _ h)
          | exact inv_pushWarning _ _ (inv_pushWarning _ _ (inv_pushError _ _))

theorem inv_validateGo (fs : FS) (r : ValidationResult) (h : ResultInv r) :
    ResultInv (validateGo fs r) := by
  unfold validateGo
  cases hman : readFileFS fs ["go.mod"] with
  | none => exact inv_pushError _ _
  | some gomod =>
    dsimp only
    cases hm : readFileFS fs ["main.go"] with
    | none =>
      dsimp only
      split_ifs <;>
        first
          | exact h
          | exact inv_pushError _ _
          | exact inv_pushWarning _ _ h
          | exact inv_pushWarning _ _ (inv_pushError _ _)
          | exact inv_pushWarning _ _ (inv_pushWarning _ _ h)
          | exact inv_pushWarning _ _ (inv_pushWarning _ _ (inv_pushError _ _))
    | some content =>
      dsimp only
      split_ifs <;>
        first
          | exact h
          | exact inv_pushError _ _
          | exact inv_pushWarning _ _ h
          | exact inv_pushWarning _ _ (inv_pushError _ _)
          | exact inv_pushWarning _ _ (inv_pushWarning _ _ h)
          | exact inv_pushWarning _ _ (inv_pushWarning _ _ (inv_pushError _ _))

theorem inv_validateRust (fs : FS) (r : ValidationResult) (h : ResultInv r) :
    ResultInv (validateRust fs r) := by
  unfold validateRust
  cases hman : readFileFS fs ["Cargo.toml"] with
  | none => exact inv_pushError _ _
  | some cargo =>
    dsimp only
    cases hm : readFileFS fs ["src", "main.rs"] with
    | none =>
      dsimp only
      split_ifs <;>
        first
          | exact h
          | exact inv_pushError _ _
          | exact inv_pushWarning _ _ h
          | exact inv_pushWarning _ _ (inv_pushError _ _)
          | exact inv_pushWarning _ _ (inv_pushWarning _ _ h)
          | exact inv_pushWarning _ _ (inv_pushWarning _ _ (inv_pushError _ _))
    | some content =>
      dsimp only
      split_ifs <;>
        first
          | exact h
          | exact inv_pushError _ _
          | exact inv_pushWarning _ _ h
          | exact inv_pushWarning _ _ (inv_pushError _ _)
          | exact inv_pushWarning _ _ (inv_pushWarning _ _ h)
          | exact inv_pushWarning _ _ (inv_pushWarning _ _ (inv_pushError _ _))

theorem inv_validateTypeScript (pd : String → Option (List String)) (fs : FS)
    (r r' : ValidationResult) (h : ResultInv r)
    (heq : validateTypeScript pd fs r = some r') : ResultInv r' := by
  unfold validateTypeScript at heq
  cases hman : readFileFS fs ["package.json"] with
  | none =>
    rw [hman] at heq
    injection heq with heq
    subst heq
    exact inv_pushError _ _
  | some pkg =>
    rw [hman] at heq
    dsimp only at heq
    cases hpd : pd pkg with
    | none => rw [hpd] at heq; cases heq
    | some deps =>
      rw [hpd] at heq
      dsimp only at heq
      cases hidx : readFileFS fs ["src", "index.ts"] with
      | none =>
        rw [hidx] at heq
        dsimp only at heq
        split_ifs at heq <;>
          (injection heq with heq; subst heq;
            first
          | exact h
          | exact inv_pushError _ _
          | exact inv_pushWarning _ _ h
          | exact inv_pushWarning _ _ (inv_pushError _ _)
          | exact inv_pushWarning _ _ (inv_pushWarning _ _ h)
          | exact inv_pushWarning _ _ (inv_pushWarning _ _ (inv_pushError _ _)))
      | some content =>
        rw [hidx] at heq
        dsimp only at heq
        split_ifs at heq <;>
          (injection heq with heq; subst heq;
            first
          | exact h
          | exact inv_pushError _ _
          | exact inv_pushWarning _ _ h
          | exact inv_pushWarning _ _ (inv_pushError _ _)
          | exact inv_pushWarning _ _ (inv_pushWarning _ _ h)
          | exact inv_pushWarning _ _ (inv_pushWarning _ _ (inv_pushError _ _)))

/-- C2: for every project directory, project name and detected language,
whenever `validateProject` returns a `ValidationResult`, `valid` is `true`
exactly when the accumulated `errors` list is empty — independent of how
many warnings were pushed.  Every error site in the source also sets
`valid = false` and `valid` is never reset. -/
theorem validateProject_valid_iff_no_errors (pd : String → Option (List String))
    (fs : FS) (projName : String) (lang : Lang) (r : ValidationResult)
    (h : validateProject pd fs projName lang = some r) :
    r.valid = true ↔ r.errors = [] := by
  have hc : ResultInv (validateCommon fs ⟨true, [], []⟩) :=
    inv_validateCommon fs ⟨true, [], []⟩ rfl
  have hinv : ResultInv r := by
    unfold validateProject at h
    cases lang with
    | python =>
      dsimp only at h
      injection h with h
      subst h
      exact inv_validatePython _ _ _ hc
    | typescript =>
      dsimp only at h
      exact inv_validateTypeScript _ _ _ _ hc h
    | go =>
      dsimp only at h
      injection h with h
      subst h
      exact inv_validateGo _ _ hc
    | rust =>
      dsimp only at h
      injection h with h
      subst h
      exact inv_validateRust _ _ hc
  unfold ResultInv at hinv
  constructor
  · intro hv
    rw [hv] at hinv
    exact (List.isEmpty_iff).mp hinv.symm
  · intro he
    rw [he] at hinv
    simpa using hinv

/-- C2 witness: the invariant theorem applied to the result of validating
an empty directory as Python. -/
theorem validateProject_valid_iff_witness :
    validateProject (fun _ => some []) [] "p" Lang.python
      = some ⟨false, ["Missing pyproject.toml"], ["Missing README.md", "Missing .gitignore"]⟩ ∧
    ((ValidationResult.mk false ["Missing pyproject.toml"]
        ["Missing README.md", "Missing .gitignore"]).valid = true
      ↔ (ValidationResult.mk false ["Missing pyproject.toml"]
        ["Missing README.md", "Missing .gitignore"]).errors = []) :=
  ⟨by decide, validateProject_valid_iff_no_errors (fun _ => some []) [] "p" Lang.python
    ⟨false, ["Missing pyproject.toml"], ["Missing README.md", "Missing .gitignore"]⟩
    (by decide)⟩

/-- The per-language manifest file checked first by the validator. -/
def manifestFPath : Lang → FPath
  | .python => ["pyproject.toml"]
  | .typescript => ["package.json"]
  | .go => ["go.mod"]
  | .rust => ["Cargo.toml"]

/-- The candidate entry-point locations the validator probes. -/
def entryFPaths : Lang → String → List FPath
  | .python, projName =>
    [[dashToUnderscore projName, "server.py"], ["src", "server.py"], ["server.py"]]
  | .typescript, _ => [["src", "index.ts"]]
  | .go, _ => [["main.go"]]
  | .rust, _ => [["src", "main.rs"]]

/-- The error the validator reports for a missing entry point. -/
def entryErrMsg : Lang → String
  | .python => "Missing server.py file"
  | .typescript => "Missing src/index.ts"
  | .go => "Missing main.go"
  | .rust => "Missing src/main.rs"

/-- The manifest declares the required MCP dependency, in the validator's
own sense for each language. -/
def depDeclared (parseDeps : String → Option (List String)) :
    Lang → String → Prop
  | .python, content =>
    (strIncludes content "mcp" || strIncludes content "fastmcp") = true
  | .typescript, content =>
    ∃ deps, parseDeps content = some deps ∧
      deps.contains "@modelcontextprotocol/sdk" = true
  | .go, content =>
    (strIncludes content "mcp-go" || strIncludes content "go-sdk") = true
  | .rust, content => strIncludes content "rmcp" = true

theorem validateCommon_fields (fs : FS) (r : ValidationResult) :
    (validateCommon fs r).errors = r.errors ∧ (validateCommon fs r).valid = r.valid := by
  unfold validateCommon
  split_ifs <;> simp [pushWarning]

theorem validatePython_missing_entry {fs : FS} {n : String} {r : ValidationResult}
    {content : String}
    (hman : readFileFS fs ["pyproject.toml"] = some content)
    (hdep : (strIncludes content "mcp" || strIncludes content "fastmcp") = true)
    (h1 : readFileFS fs [dashToUnderscore n, "server.py"] = none)
    (h2 : readFileFS fs ["src", "server.py"] = none)
    (h3 : readFileFS fs ["server.py"] = none) :
    (validatePython fs n r).errors = r.errors ++ ["Missing server.py file"] ∧
    (validatePython fs n r).valid = false := by
  have hcond : (!(strIncludes content "mcp") && !(strIncludes content "fastmcp")) = false := by
    rw [← Bool.not_or, hdep]
    rfl
  have hfind : List.findSome? (readFileFS fs)
      [[dashToUnderscore n, "server.py"], ["src", "server.py"], ["server.py"]] = none := by
    simp [h1, h2, h3]
  unfold validatePython
  rw [hman]
  dsimp only
  rw [hfind]
  dsimp only
  split_ifs <;> simp_all [pushError, pushWarning]

theorem validateGo_missing_entry {fs : FS} {r : ValidationResult} {content : String}
    (hman : readFileFS fs ["go.mod"] = some content)
    (hdep : (strIncludes content "mcp-go" || strIncludes content "go-sdk") = true)
    (h1 : readFileFS fs ["main.go"] = none) :
    (validateGo fs r).errors = r.errors ++ ["Missing main.go"] ∧
    (validateGo fs r).valid = false := by
  have hcond : (!(strIncludes content "mcp-go") && !(strIncludes content "go-sdk")) = false := by
    rw [← Bool.not_or, hdep]
    rfl
  unfold validateGo
  rw [hman]
  dsimp only
  rw [h1]
  dsimp only
  split_ifs <;> simp_all [pushError, pushWarning]

theorem validateRust_missing_entry {fs : FS} {r : ValidationResult} {content : String}
    (hman : readFileFS fs ["Cargo.toml"] = some content)
    (hdep : strIncludes content "rmcp" = true)
    (h1 : readFileFS fs ["src", "main.rs"] = none) :
    (validateRust fs r).errors = r.errors ++ ["Missing src/main.rs"] ∧
    (validateRust fs r).valid = false := by
  unfold validateRust
  rw [hman]
  dsimp only
  rw [h1]
  dsimp only
  split_ifs <;> simp_all [pushError, pushWarning]

theorem validateTypeScript_missing_entry {pd : String → Option (List String)}
    {fs : FS} {r : ValidationResult} {pkg : String} {deps : List String}
    (hman : readFileFS fs ["package.json"] = some pkg)
    (hpd : pd pkg = some deps)
    (hdep : deps.contains "@modelcontextprotocol/sdk" = true)
    (hentry : readFileFS fs ["src", "index.ts"] = none) :
    (validateTypeScript pd fs r).map (fun x => (x.errors, x.valid))
      = some (r.errors ++ ["Missing src/index.ts"], false) := by
  unfold validateTypeScript
  rw [hman]
  dsimp only
  rw [hpd]
  dsimp only
  rw [hentry]
  dsimp only
  split_ifs <;> simp_all [pushError, pushWarning]

/-- C7: for every language, running the structural validator against a
directory that contains the language's manifest file with the required MCP
dependency declared, but none of the entry-point locations, yields a
`ValidationResult` whose `errors` list is exactly the single entry naming
the missing entry-point file, with `valid = false`. -/
theorem validate_missing_entry_point (pd : String → Option (List String)) (lang : Lang)
    (fs : FS) (projName : String) (content : String)
    (hman : readFileFS fs (manifestFPath lang) = some content)
    (hdep : depDeclared pd lang content)
    (hentry : ∀ p ∈ entryFPaths lang projName, readFileFS fs p = none) :
    (validateProject pd fs projName lang).map (fun r => (r.errors, r.valid))
      = some ([entryErrMsg lang], false) := by
  have hcf := validateCommon_fields fs ⟨true, [], []⟩
  cases lang with
  | python =>
    have h1 := hentry [dashToUnderscore projName, "server.py"] (by simp [entryFPaths])
    have h2 := hentry ["src", "server.py"] (by simp [entryFPaths])
    have h3 := hentry ["server.py"] (by simp [entryFPaths])
    have hp := validatePython_missing_entry (r := validateCommon fs ⟨true, [], []⟩)
      hman hdep h1 h2 h3
    unfold validateProject
    dsimp only
    dsimp only [Option.map]
    rw [hp.1, hp.2, hcf.1]
    rfl
  | typescript =>
    obtain ⟨deps, hpd, hdep'⟩ := hdep
    have h1 := hentry ["src", "index.ts"] (by simp [entryFPaths])
    have hts := validateTypeScript_missing_entry (r := validateCommon fs ⟨true, [], []⟩)
      hman hpd hdep' h1
    unfold validateProject
    dsimp only
    rw [hts, hcf.1]
    rfl
  | go =>
    have h1 := hentry ["main.go"] (by simp [entryFPaths])
    have hg := validateGo_missing_entry (r := validateCommon fs ⟨true, [], []⟩) hman hdep h1
    unfold validateProject
    dsimp only
    dsimp only [Option.map]
    rw [hg.1, hg.2, hcf.1]
    rfl
  | rust =>
    have h1 := hentry ["src", "main.rs"] (by simp [entryFPaths])
    have hr := validateRust_missing_entry (r := validateCommon fs ⟨true, [], []⟩) hman hdep h1
    unfold validateProject
    dsimp only
    dsimp only [Option.map]
    rw [hr.1, hr.2, hcf.1]
    rfl

/-- C7 witness: a Go directory with only a `go.mod` declaring `mcp-go`. -/
theorem validate_missing_entry_point_witness :
    (validateProject (fun _ => some []) [(["go.mod"], "require github.com/mark3labs/mcp-go v0.6.0")]
        "x" Lang.go).map (fun r => (r.errors, r.valid))
      = some (["Missing main.go"], false) :=
  validate_missing_entry_point (fun _ => some []) Lang.go
    [(["go.mod"], "require github.com/mark3labs/mcp-go v0.6.0")] "x"
    "require github.com/mark3labs/mcp-go v0.6.0" (by decide)
    (show (strIncludes "require github.com/mark3labs/mcp-go v0.6.0" "mcp-go"
        || strIncludes "require github.com/mark3labs/mcp-go v0.6.0" "go-sdk") = true by decide)
    (by decide)
